import Mathlib

/-!
Verification of the macOS backend image and printing code of BRL-CAD/tk
(src/macosx/tkMacOSXImage.c and src/macosx/tkMacOSXPrint.c) against its
natural-language specification.

The C code is shallowly embedded: machine integers become `Nat` with explicit
`% 2^w` where C truncates, byte buffers become functions `Nat → Nat` read
modulo 256 (an `unsigned char *`), and nullable pointers become `Option`.
The host is little-endian (macOS; the source compiles with `WORDS_BIGENDIAN`
undefined), so the `unsigned short` / `unsigned int` loads and stores used by
`ImageGetPixel` / `ImagePutPixel` are modelled as little-endian multi-byte
reads and writes.
-/

/-! ## X11 and Core Graphics constants (from X11/X.h and CGImage.h) -/

/-- X11 `XYBitmap` image format. -/
def XYBitmap : Nat := 0

/-- X11 `XYPixmap` image format. -/
def XYPixmap : Nat := 1

/-- X11 `ZPixmap` image format. -/
def ZPixmap : Nat := 2

/-- X11 `LSBFirst` byte/bit order. -/
def LSBFirst : Nat := 0

/-- X11 `MSBFirst` byte/bit order. -/
def MSBFirst : Nat := 1

/-- Bits per byte (`NBBY` from the BSD headers used by the source). -/
def NBBY : Nat := 8

/-! ## Byte buffers

A C `char *` image buffer is a function from byte offsets to values; reads go
through `byteAt`, which truncates to `unsigned char` range.  Multi-byte
accesses are little-endian, matching the macOS host that this backend targets.
-/

/-- Read one byte (an `unsigned char`) at offset `i`. -/
def byteAt (d : Nat → Nat) (i : Nat) : Nat := d i % 256

/-- Read a 16-bit word at byte offset `i`, little-endian
(a `*((unsigned short *) p)` load on the macOS host). -/
def word16At (d : Nat → Nat) (i : Nat) : Nat :=
  byteAt d i + 256 * byteAt d (i + 1)

/-- Read a 32-bit word at byte offset `i`, little-endian
(a `*((unsigned int *) p)` load on the macOS host). -/
def word32At (d : Nat → Nat) (i : Nat) : Nat :=
  byteAt d i + 256 * byteAt d (i + 1) + 65536 * byteAt d (i + 2) +
    16777216 * byteAt d (i + 3)

/-- Store one byte at offset `i` (a `*p = v` store to an `unsigned char *`). -/
def writeByte (d : Nat → Nat) (i v : Nat) : Nat → Nat :=
  fun j => if j = i then v % 256 else d j

/-- Store a 16-bit word at byte offset `i`, little-endian
(a `*((unsigned short *) p) = v` store on the macOS host). -/
def writeWord16 (d : Nat → Nat) (i v : Nat) : Nat → Nat :=
  fun j =>
    if j = i then v % 256
    else if j = i + 1 then v / 256 % 256
    else d j

/-- Store a 32-bit word at byte offset `i`, little-endian
(a `*((unsigned int *) p) = v` store on the macOS host). -/
def writeWord32 (d : Nat → Nat) (i v : Nat) : Nat → Nat :=
  fun j =>
    if j = i then v % 256
    else if j = i + 1 then v / 256 % 256
    else if j = i + 2 then v / 65536 % 256
    else if j = i + 3 then v / 16777216 % 256
    else d j

/-! ## The XImage structure (X11's `XImage`, as used by tkMacOSXImage.c)

The function-pointer block `f` and `obdata` are omitted; `data` is `Option`
so that a NULL data pointer can be expressed (both `ImageGetPixel` and
`ImagePutPixel` test `image && image->data`).
-/

structure XImage where
  width : Nat
  height : Nat
  xoffset : Nat
  format : Nat
  data : Option (Nat → Nat)
  byte_order : Nat
  bitmap_unit : Nat
  bitmap_bit_order : Nat
  bitmap_pad : Nat
  depth : Nat
  bytes_per_line : Nat
  bits_per_pixel : Nat
  red_mask : Nat
  green_mask : Nat
  blue_mask : Nat

/-- Modelled from the spec: the macro `TkMacOSXRGBPixel` (tkMacOSXPort.h, not
included under src/) packs 8-bit red, green and blue values into one pixel
word laid out by the default channel masks red `0x00FF0000`,
green `0x0000FF00`, blue `0x000000FF` that `XCreateImage` installs. -/
def TkMacOSXRGBPixel (r g b : Nat) : Nat :=
  ((r &&& 0xff) <<< 16) ||| ((g &&& 0xff) <<< 8) ||| (b &&& 0xff)

/-- The byte offset that `ImageGetPixel` / `ImagePutPixel` compute for the
pixel at `(x, y)`:
`(y * bytes_per_line) + ((xoffset + x) * bits_per_pixel) / NBBY`. -/
def pixelOffset (img : XImage) (x y : Nat) : Nat :=
  y * img.bytes_per_line + (img.xoffset + x) * img.bits_per_pixel / NBBY

/-- The 8-bit red, green and blue values that `ImageGetPixel`
(tkMacOSXImage.c:193-250) computes before packing them with
`TkMacOSXRGBPixel`.  The `r = g = b = 0` initialization covers a NULL image,
a NULL data pointer, and the fall-through of the `switch` on
`bits_per_pixel`. -/
def ImageGetChannels (image : Option XImage) (x y : Nat) : Nat × Nat × Nat :=
  match image with
  | none => (0, 0, 0)
  | some img =>
    match img.data with
    | none => (0, 0, 0)
    | some d =>
      let off := pixelOffset img x y
      match img.bits_per_pixel with
      | 32 => /- 8 bits per channel -/
        ((word32At d off >>> 16) &&& 0xff,
         (word32At d off >>> 8) &&& 0xff,
         word32At d off &&& 0xff)
      | 16 => /- 5 bits per channel -/
        ((word16At d off >>> 7) &&& 0xf8,
         (word16At d off >>> 2) &&& 0xf8,
         (word16At d off <<< 3) &&& 0xf8)
      | 8 => /- 2 bits per channel -/
        let r0 := (byteAt d off <<< 2) &&& 0xc0
        let g0 := (byteAt d off <<< 4) &&& 0xc0
        let b0 := (byteAt d off <<< 6) &&& 0xc0
        (r0 ||| (r0 >>> 2 ||| r0 >>> 4 ||| r0 >>> 6),
         g0 ||| (g0 >>> 2 ||| g0 >>> 4 ||| g0 >>> 6),
         b0 ||| (b0 >>> 2 ||| b0 >>> 4 ||| b0 >>> 6))
      | 4 => /- 1 bit per channel -/
        let c := if x % 2 ≠ 0 then byteAt d off else byteAt d off >>> 4
        (if c &&& 0x04 ≠ 0 then 0xff else 0,
         if c &&& 0x02 ≠ 0 then 0xff else 0,
         if c &&& 0x01 ≠ 0 then 0xff else 0)
      | 1 => /- Black-white bitmap -/
        let v := if byteAt d off &&& (0x80 >>> (x % 8)) ≠ 0 then 0xff else 0
        (v, v, v)
      | _ => (0, 0, 0)

/-- `ImageGetPixel` (tkMacOSXImage.c:193-250): returns the pixel value of an
XColor with the same red, green and blue components as the XImage pixel at
`(x, y)`. -/
def ImageGetPixel (image : Option XImage) (x y : Nat) : Nat :=
  let ch := ImageGetChannels image x y
  TkMacOSXRGBPixel ch.1 ch.2.1 ch.2.2

/-- `ImagePutPixel` (tkMacOSXImage.c:268-310): set a single pixel in an
image.  Returns the image with its buffer updated; a NULL image or a NULL
data pointer leaves everything unchanged (the C body is skipped). -/
def ImagePutPixel (image : Option XImage) (x y : Nat) (pixel : Nat) :
    Option XImage :=
  match image with
  | none => none
  | some img =>
    match img.data with
    | none => some img
    | some d =>
      let off := pixelOffset img x y
      if img.bits_per_pixel = 32 then
        /- `*((unsigned int*) dstPtr) = pixel` truncates the unsigned long -/
        some { img with data := some (writeWord32 d off (pixel % 4294967296)) }
      else
        let r := ((pixel &&& img.red_mask) >>> 16) &&& 0xff
        let g := ((pixel &&& img.green_mask) >>> 8) &&& 0xff
        let b := (pixel &&& img.blue_mask) &&& 0xff
        match img.bits_per_pixel with
        | 16 =>
          some { img with data := some (writeWord16 d off
            (((r &&& 0xf8) <<< 7) ||| ((g &&& 0xf8) <<< 2) |||
              ((b &&& 0xf8) >>> 3))) }
        | 8 =>
          some { img with data := some (writeByte d off
            (((r &&& 0xc0) >>> 2) ||| ((g &&& 0xc0) >>> 4) |||
              ((b &&& 0xc0) >>> 6))) }
        | 4 =>
          let c := ((r &&& 0x80) >>> 5) ||| ((g &&& 0x80) >>> 6) |||
            ((b &&& 0x80) >>> 7)
          let old := byteAt d off
          some { img with data := some (writeByte d off
            (if x % 2 ≠ 0 then (old &&& 0xf0) ||| (c &&& 0x0f)
             else (old &&& 0x0f) ||| ((c <<< 4) &&& 0xf0))) }
        | 1 =>
          let m := 0x80 >>> (x % 8)
          let old := byteAt d off
          /- `*dstPtr & ~m` on a promoted byte equals `old &&& (0xff ^^^ m)` -/
          some { img with data := some (writeByte d off
            (if (r ||| g ||| b) &&& 0x80 ≠ 0 then old ||| m
             else old &&& (0xff ^^^ m))) }
        | _ => some img

/-! ## XCreateImage (tkMacOSXImage.c:328-395)

`display->request++` touches only the display connection and is omitted.
All `int` / `unsigned int` arithmetic in the stride computation is 32-bit:
the multiplication and addition wrap modulo `2^32`, and the two's-complement
mask `~((bitmap_pad >> 3) - 1)` is the 32-bit value `2^32 - (bitmap_pad >> 3)`
(reduced modulo `2^32`, which also covers `bitmap_pad >> 3 = 0`).
-/

def XCreateImage (depth format offset : Nat) (data : Option (Nat → Nat))
    (width height bitmap_pad bytes_per_line : Nat) : XImage :=
  let bpp := if format = ZPixmap then 32 else 1
  let unit := if format = ZPixmap then 32 else 8
  let pad := if bitmap_pad ≠ 0 then bitmap_pad else 128
  let bpl :=
    if bytes_per_line ≠ 0 then bytes_per_line
    else (((width * bpp + (pad - 1)) % 4294967296) >>> 3) &&&
      ((4294967296 - (pad >>> 3)) % 4294967296)
  { width := width
    height := height
    xoffset := offset
    format := format
    data := data
    byte_order := LSBFirst
    bitmap_unit := unit
    bitmap_bit_order := LSBFirst
    bitmap_pad := pad
    depth := depth
    bytes_per_line := bpl
    bits_per_pixel := bpp
    red_mask := 0x00FF0000
    green_mask := 0x0000FF00
    blue_mask := 0x000000FF }

/-! ## TkMacOSXCreateCGImageWithXImage (tkMacOSXImage.c:58-142) -/

/-- Modelled from the spec: the lookup table `xBitReverseTable` (xbytes.h, not
included under src/) maps a byte to the byte with its bit order reversed. -/
def xBitReverseTable (b : Nat) : Nat :=
  (b % 2) * 128 + (b / 2 % 2) * 64 + (b / 4 % 2) * 32 + (b / 8 % 2) * 16 +
    (b / 16 % 2) * 8 + (b / 32 % 2) * 4 + (b / 64 % 2) * 2 + b / 128 % 2

/-- Core Graphics `kCGBitmapByteOrder32Little` (2 << 12). -/
def kCGBitmapByteOrder32Little : Nat := 8192

/-- Core Graphics `kCGBitmapByteOrder32Big` (4 << 12). -/
def kCGBitmapByteOrder32Big : Nat := 16384

/-- The native Core Graphics image produced from an `XImage`: either an image
mask (the 1-bit branch) or a color image (the 32-bit ZPixmap branch), with
the copied byte buffer and its length. -/
structure CGImage where
  isMask : Bool
  width : Nat
  height : Nat
  bitsPerComponent : Nat
  bitsPerPixel : Nat
  bytesPerRow : Nat
  bitmapInfo : Nat
  dataLen : Nat
  data : Nat → Nat

/-- `TkMacOSXCreateCGImageWithXImage`: create a CGImage from an XImage,
copying the image data.  Returns `none` exactly where the C function returns
NULL.  The external Core Graphics constructors (`CGDataProviderCreateWithData`,
`CGImageMaskCreate`, `CGImageCreate`) and `ckalloc` are modelled as always
succeeding; a NULL `data` pointer would be undefined behavior (`memcpy` from
NULL) in the source and is modelled as an all-zero buffer. -/
def TkMacOSXCreateCGImageWithXImage (image : XImage) (alphaInfo : Nat) :
    Option CGImage :=
  let len := image.bytes_per_line * image.height
  let d := image.data.getD (fun _ => 0)
  if image.bits_per_pixel = 1 then
    /- BW image: the decode array reverses the sense of the bits -/
    let copied : Nat → Nat :=
      if image.bitmap_bit_order ≠ MSBFirst then
        fun i => xBitReverseTable (byteAt d (image.xoffset + i))
      else
        fun i => byteAt d (image.xoffset + i)
    some { isMask := true
           width := image.width
           height := image.height
           bitsPerComponent := 1
           bitsPerPixel := 1
           bytesPerRow := image.bytes_per_line
           bitmapInfo := 0
           dataLen := len
           data := copied }
  else if image.format = ZPixmap ∧ image.bits_per_pixel = 32 then
    /- Color image -/
    if image.width = 0 ∧ image.height = 0 then
      /- CGCreateImage complains on early macOS releases -/
      none
    else
      some { isMask := false
             width := image.width
             height := image.height
             bitsPerComponent := 8
             bitsPerPixel := 32
             bytesPerRow := image.bytes_per_line
             bitmapInfo := (if image.byte_order = MSBFirst then
               kCGBitmapByteOrder32Little else kCGBitmapByteOrder32Big) |||
               alphaInfo
             dataLen := len
             data := fun i => byteAt d (image.xoffset + i) }
  else
    /- TkMacOSXDbgMsg("Unsupported image type") -/
    none

/-! ## The nsimage image type (tkMacOSXImage.c:949-1552)

NSImage objects are modelled as descriptors recording how they were built:
the source reference they resolve, the size installed by `setSize`, the
`isTemplate` property, whether the white flood fill for Dark Mode was
applied, and an applied `TintImage` blend.  The Cocoa resolution calls
(`imageNamed`, `initWithContentsOfFile`, `iconForFile`, `iconForFileType`)
are external and provided by an environment.
-/

/-- How an NSImage was obtained from the `-source` string. -/
inductive NSImageBase where
  | named (s : String)
  | ofFileContents (s : String)
  | iconForFile (s : String)
  | iconForFileType (s : String)
deriving DecidableEq, Repr

/-- The two NSColor values the nsimage code blends with. -/
inductive NSColorVal where
  | black
  | white
deriving DecidableEq, Repr

/-- Descriptor of an NSImage value. -/
structure NSImage where
  base : NSImageBase
  width : Int
  height : Int
  isTemplate : Bool
  whiteFilled : Bool
  tint : Option (NSColorVal × Rat)
deriving DecidableEq, Repr

/-- `TintImage` (tkMacOSXImage.c:1085-1108): blend an NSImage with a color at
the given alpha; the blend is recorded in the descriptor. -/
def TintImage (image : NSImage) (color : NSColorVal) (alpha : Rat) : NSImage :=
  { image with tint := some (color, alpha) }

/-- External Cocoa behavior for resolving a `-source` string: whether a named
image exists and is a template, whether an image file loads and is a
template, and the template property of the file and file-type icons
(`iconForFile` / `iconForFileType` always return an icon). -/
structure NSEnv where
  namedImage : String → Option Bool
  fileImage : String → Option Bool
  pathIconTemplate : String → Bool
  filetypeIconTemplate : String → Bool

/-- The master record for an nsimage (struct `TkNSImageMaster`), holding the
configuration options and the light and dark images.  `tkMaster`, `interp`
and the instance list are bookkeeping handled by the surrounding toolkit. -/
structure TkNSImageMaster where
  imageName : String
  source : Option String
  as : String
  width : Int
  height : Int
  alpha : Rat
  pressed : Bool
  image : Option NSImage
  darkModeImage : Option NSImage
deriving DecidableEq, Repr

/-- The table `sourceInterpretations` (tkMacOSXImage.c:1056-1061): the
possible values of the `-as` option. -/
def sourceInterpretations : List String := ["name", "file", "path", "filetype"]

/-- Models Tcl's `Tcl_GetIndexFromObj` (external Tcl library, called with
`flags = 0`): the key matches the table entry it is equal to, or the unique
table entry of which it is a proper prefix; otherwise the lookup fails.
An ambiguous abbreviation or an unknown key returns an error. -/
def tclGetIndexFromObj (key : String) (table : List String) : Option Nat :=
  match (List.range table.length).filter
      (fun i => table.getD i "" = key) with
  | i :: _ => some i
  | [] =>
    match (List.range table.length).filter
        (fun i => key.data.isPrefixOf (table.getD i "").data) with
    | [i] => some i
    | _ => none

/-- Result of `TkNSImageConfigureMaster`: the Tcl return code
(`TCL_OK` = 0, `TCL_ERROR` = 1), the error message left in the interpreter
result on error, and the master record after the call. -/
structure ConfigResult where
  code : Nat
  errMsg : Option String
  master : TkNSImageMaster
deriving DecidableEq, Repr

/-- The `switch (sourceInterpretation)` of `TkNSImageConfigureMaster`
(tkMacOSXImage.c:1172-1188): resolve the `-source` string by the method
selected by the `-as` interpretation. -/
def TkNSImageResolveSource (env : NSEnv) (sourceInterpretation : Nat)
    (src : String) : Option NSImage :=
  match sourceInterpretation with
  | 0 => (env.namedImage src).map fun t =>
      { base := .named src, width := 0, height := 0, isTemplate := t,
        whiteFilled := false, tint := none }
  | 1 => (env.fileImage src).map fun t =>
      { base := .ofFileContents src, width := 0, height := 0,
        isTemplate := t, whiteFilled := false, tint := none }
  | 2 => some
      { base := .iconForFile src, width := 0, height := 0,
        isTemplate := env.pathIconTemplate src,
        whiteFilled := false, tint := none }
  | 3 => some
      { base := .iconForFileType src, width := 0, height := 0,
        isTemplate := env.filetypeIconTemplate src,
        whiteFilled := false, tint := none }
  | _ => none

/-- `TkNSImageConfigureMaster` (tkMacOSXImage.c:1130-1238).  The master is
taken with its option fields already holding the values written by a
successful `Tk_SetOptions` (a failed `Tk_SetOptions` goes to `errorExit`
before any of this logic runs).  Mirrors the C control flow: the `-source`
check, the `-as` lookup, the per-interpretation resolution, `setSize`, the
copy for the Dark Mode variant, the white fill for template images, and the
tinting of pressed non-template images. -/
def TkNSImageConfigureMaster (env : NSEnv) (m : TkNSImageMaster) :
    ConfigResult :=
  if m.source = none ∨ (m.source.getD "").take 1 = "0" then
    { code := 1, errMsg := some "-source is required.", master := m }
  else
    match tclGetIndexFromObj m.as sourceInterpretations with
    | none =>
      { code := 1
        errMsg := some "Unknown interpretation for source in -as option.  Should be name, file, path, or filetype."
        master := m }
    | some sourceInterpretation =>
      match TkNSImageResolveSource env sourceInterpretation
        (m.source.getD "") with
      | some ni =>
        let ni := { ni with width := m.width, height := m.height }
        let dark := ni
        let pair :=
          if dark.isTemplate then
            /- For a template image the Dark Mode version should be white -/
            (ni, { dark with whiteFilled := true })
          else if m.pressed then
            /- Non-template pressed images are darker in Light Mode and
               lighter in Dark Mode -/
            (TintImage ni .black (1/5), TintImage dark .white (1/2))
          else
            (ni, dark)
        { code := 0, errMsg := none,
          master := { m with image := some pair.1,
                             darkModeImage := some pair.2 } }
      | none =>
        { code := 1
          errMsg := some "Unknown named NSImage."
          master := m }

/-- `TkNSImageDisplay` (tkMacOSXImage.c:1431-1468) reduced to its image
selection and compositing parameters: the image drawn is the Dark Mode
variant when the window is in dark mode and the ordinary image otherwise,
composited with fraction `masterPtr->alpha`. -/
def TkNSImageDisplay (inDarkMode : Bool) (m : TkNSImageMaster) :
    Option NSImage × Rat :=
  (if inDarkMode then m.darkModeImage else m.image, m.alpha)

/-- An nsimage instance record (struct `TkNSImageInstance`): it holds only
the pointer to its master. -/
structure TkNSImageInstance where
  masterPtr : Nat
deriving DecidableEq, Repr

/-- The heap of nsimage masters and instances, with allocation of fresh
instance identifiers. -/
structure NSImageHeap where
  masters : List (Nat × TkNSImageMaster)
  instances : List (Nat × TkNSImageInstance)
  nextId : Nat
deriving DecidableEq, Repr

/-- `TkNSImageGet` (tkMacOSXImage.c:1402-1413): allocate an instance record
whose `masterPtr` field points to the master it was created from. -/
def TkNSImageGet (h : NSImageHeap) (masterId : Nat) : Nat × NSImageHeap :=
  (h.nextId,
   { h with instances := (h.nextId, ⟨masterId⟩) :: h.instances,
            nextId := h.nextId + 1 })

/-- `TkNSImageFree` (tkMacOSXImage.c:1486-1493): `ckfree(instPtr)` — the
instance record is deallocated and nothing else is touched. -/
def TkNSImageFree (h : NSImageHeap) (instId : Nat) : NSImageHeap :=
  { h with instances := h.instances.filter (fun e => e.1 ≠ instId) }

/-! ## Native printing (tkMacOSXPrint.c)

`StartPrint` and `FinishPrint` drive external Carbon/Cocoa printing APIs.
The OS side (the `PM*` session calls, the dialog outcome, the chosen
destination, the printer's MIME types, the chosen output location) is an
environment record; the observable effects (printing, copying, running the
CUPS filter, opening Preview, showing the alert) are collected in a trace.
The module-level globals `fileName` and `urlFile` (tkMacOSXPrint.c:24-25) and
the `CFRetain`ed references held through them form the global state. -/

/-- `noErr` (Carbon `OSStatus`). -/
def noErr : Int := 0

/-- AppKit `NSModalResponseOK`. -/
def NSModalResponseOK : Int := 1

/-- AppKit `NSModalResponseCancel`. -/
def NSModalResponseCancel : Int := 0

/-- Carbon `kPMDestinationPrinter`. -/
def kPMDestinationPrinter : Nat := 1

/-- Carbon `kPMDestinationFile`. -/
def kPMDestinationFile : Nat := 2

/-- Carbon `kPMDestinationFax`. -/
def kPMDestinationFax : Nat := 3

/-- Carbon `kPMDestinationPreview`. -/
def kPMDestinationPreview : Nat := 4

/-- Tcl return codes. -/
def TCL_OK : Nat := 0

/-- Tcl error return code. -/
def TCL_ERROR : Nat := 1

/-- Responses of the external printing APIs during one invocation. -/
structure PrintEnv where
  startCreateSessionStatus : Int
  startCreateSettingsStatus : Int
  startDefaultSettingsStatus : Int
  accepted : Int
  createSessionStatus : Int
  createSettingsStatus : Int
  defaultSettingsStatus : Int
  getDestinationStatus : Int
  destination : Nat
  getCurrentPrinterStatus : Int
  getMimeTypesStatus : Int
  mimeTypesNonNull : Bool
  mimeTypesContainPDF : Bool
  printWithFileStatus : Int
  copyDestinationStatus : Int
  destExtension : String
  sourceFileExists : Bool
deriving DecidableEq, Repr

/-- Observable side effects of the print module. -/
inductive PrintAction where
  | printFile
  | copyFile
  | cupsFilter
  | openURL
  | showAlert
deriving DecidableEq, Repr

/-- The module globals of tkMacOSXPrint.c: `fileName`, `urlFile`, and the
multiset of CFString references this module currently holds retained
(`CFRetain` adds one, `CFRelease` drops one). -/
structure PrintGlobals where
  fileName : Option String
  urlFile : Option String
  retainedRefs : List String
deriving DecidableEq, Repr

/-- Drop one retained reference to the string `urlFile` points to
(`CFRelease(urlFile)`). -/
def releaseURLFile (st : PrintGlobals) : PrintGlobals :=
  match st.urlFile with
  | some f => { st with retainedRefs := st.retainedRefs.erase f }
  | none => st

/-- The trailing unsupported-destination alert block of `FinishPrint`
(tkMacOSXPrint.c:271-286), entered with the current `status`.  In C the
`||` operands `kPMDestinationFile` and `kPMDestinationPrinter` of its
condition are nonzero constants, so the condition holds whenever
`status == noErr`. -/
def FinishPrintAlertBlock (env : PrintEnv) (st1 : PrintGlobals)
    (status : Int) : Int × PrintGlobals × List PrintAction :=
  if status = noErr ∧ (env.destination ≠ kPMDestinationPreview ∨
      kPMDestinationFile ≠ 0 ∨ kPMDestinationPrinter ≠ 0) then
    (status, st1, [.showAlert])
  else (status, st1, [])

/-- The preview block of `FinishPrint` (tkMacOSXPrint.c:260-269): open the
file in the default application and return `noErr`. -/
def FinishPrintPreviewBlock (env : PrintEnv) (st1 : PrintGlobals)
    (status : Int) : Int × PrintGlobals × List PrintAction :=
  if status = noErr ∧ env.destination = kPMDestinationPreview then
    (noErr, st1, [.openURL])
  else FinishPrintAlertBlock env st1 status

/-- The file-destination block of `FinishPrint` (tkMacOSXPrint.c:209-258):
copy the print file to a `.pdf` target if it exists, or convert it through
`cupsfilter` for a `.ps` target. -/
def FinishPrintFileBlock (env : PrintEnv) (st1 : PrintGlobals)
    (status : Int) : Int × PrintGlobals × List PrintAction :=
  if status = noErr ∧ env.destination = kPMDestinationFile then
    if env.copyDestinationStatus = noErr then
      (env.copyDestinationStatus, st1,
        (if env.destExtension = "pdf" ∧ env.sourceFileExists then
          [.copyFile] else []) ++
        (if env.destExtension = "ps" then [.cupsFilter] else []))
    else FinishPrintPreviewBlock env st1 env.copyDestinationStatus
  else FinishPrintPreviewBlock env st1 status

/-- `FinishPrint` (tkMacOSXPrint.c:134-298): handle the print process based
on the dialog outcome.  Returns the `OSStatus`, the globals after the call,
and the trace of effects.  The branch structure mirrors the C function: the
early cancel return, the three session-setup calls, the `urlFile` NULL
check, then the sequential printer / file / preview / alert blocks with
`status` threaded through exactly as the C reassigns it, and the final
`return status`. -/
def FinishPrint (env : PrintEnv) (st : PrintGlobals) (file : Option String)
    (buttonValue : Int) : Int × PrintGlobals × List PrintAction :=
  if buttonValue = NSModalResponseCancel then (noErr, st, [])
  else if env.createSessionStatus ≠ noErr then (env.createSessionStatus, st, [])
  else if env.createSettingsStatus ≠ noErr then
    (env.createSettingsStatus, st, [])
  else if env.defaultSettingsStatus ≠ noErr then
    (env.defaultSettingsStatus, st, [])
  else if buttonValue = NSModalResponseOK then
    if st.urlFile = none then (noErr, st, [])
    else
      let st1 := { st with fileName := file }
      if env.getDestinationStatus = noErr ∧
          env.destination = kPMDestinationPrinter then
        if env.getCurrentPrinterStatus = noErr then
          if env.getMimeTypesStatus = noErr ∧ env.mimeTypesNonNull then
            if env.mimeTypesContainPDF then
              (env.printWithFileStatus, releaseURLFile st1, [.printFile])
            else FinishPrintFileBlock env st1 env.getMimeTypesStatus
          else FinishPrintFileBlock env st1 env.getMimeTypesStatus
        else FinishPrintFileBlock env st1 env.getCurrentPrinterStatus
      else FinishPrintFileBlock env st1 env.getDestinationStatus
  else (noErr, st, [])

/-- `StartPrint` (tkMacOSXPrint.c:70-120): check the argument count, store
the file path in the globals `fileName` / `urlFile` and `CFRetain` it, run
the three session-setup calls, run the modal print panel, and hand the
dialog outcome to `FinishPrint` through the panel delegate.  The Tcl return
code ignores the `OSStatus` of `FinishPrint`. -/
def StartPrint (env : PrintEnv) (st : PrintGlobals) (args : List String) :
    Nat × PrintGlobals × List PrintAction :=
  if args.length < 2 then (TCL_ERROR, st, [])
  else
    let f := args.getD 1 ""
    let st1 : PrintGlobals :=
      { st with fileName := some f, urlFile := some f,
                retainedRefs := f :: st.retainedRefs }
    if env.startCreateSessionStatus ≠ noErr then (TCL_ERROR, st1, [])
    else if env.startCreateSettingsStatus ≠ noErr then (TCL_ERROR, st1, [])
    else if env.startDefaultSettingsStatus ≠ noErr then (TCL_ERROR, st1, [])
    else
      let r := FinishPrint env st1 st1.fileName env.accepted
      (TCL_OK, r.2.1, r.2.2)

/-! ## Bitwise arithmetic helpers -/

/-- A mask shifted left selects the same bits as masking the shifted value. -/
theorem and_shiftLeft_comm (x m j : Nat) :
    x &&& (m <<< j) = ((x >>> j) &&& m) <<< j := by
  apply Nat.eq_of_testBit_eq
  intro i
  simp only [Nat.testBit_and, Nat.testBit_shiftLeft, Nat.testBit_shiftRight]
  by_cases h : j ≤ i
  · simp [h, Nat.add_sub_cancel' h, Bool.and_comm, Bool.and_left_comm]
  · simp [h]

/-- Bits at or above `2 ^ n` do not affect a conjunction with a mask below
`2 ^ n`. -/
theorem and_mod_of_lt (x : Nat) {m n : Nat} (h : m < 2 ^ n) :
    x &&& m = (x % 2 ^ n) &&& m := by
  apply Nat.eq_of_testBit_eq
  intro i
  simp only [Nat.testBit_and, Nat.testBit_mod_two_pow]
  by_cases hi : i < n
  · simp [hi]
  · have : m < 2 ^ i := lt_of_lt_of_le h (Nat.pow_le_pow_right (by omega) (by omega))
    simp [hi, Nat.testBit_lt_two_pow this]

set_option maxRecDepth 4096 in
/-- Masking a byte with `0xf8` keeps its top five bits. -/
theorem and_f8_eq : ∀ r < 256, r &&& 0xf8 = 8 * (r / 8) := by decide

set_option maxRecDepth 4096 in
/-- Masking a byte with `0xc0` keeps its top two bits. -/
theorem and_c0_eq : ∀ r < 256, r &&& 0xc0 = 64 * (r / 64) := by decide

set_option maxRecDepth 4096 in
/-- Masking a byte with `0x80` keeps its top bit. -/
theorem and_80_eq : ∀ r < 256, r &&& 0x80 = 128 * (r / 128) := by decide

/-- A multiple of eight below 256 plus three junk bits masks back to itself. -/
theorem and_f8_junk : ∀ a < 32, ∀ e < 8, (8 * a + e) &&& 0xf8 = 8 * a := by
  decide

/-- The 16bpp pixel assembled by `ImagePutPixel` from the 5-bit channel
values `a`, `b`, `c` is the packed word `a·2^10 + b·2^5 + c`. -/
theorem pack16 (a b c : Nat) (ha : a < 32) (hb : b < 32) (hc : c < 32) :
    ((8 * a) <<< 7) ||| ((8 * b) <<< 2) ||| ((8 * c) >>> 3)
      = 1024 * a + 32 * b + c := by
  rw [Nat.shiftLeft_eq, Nat.shiftLeft_eq, Nat.shiftRight_eq_div_pow]
  have h1 : 8 * a * 2 ^ 7 = 2 ^ 10 * a := by ring
  have h2 : 8 * b * 2 ^ 2 = 32 * b := by ring
  have h3 : 8 * c / 2 ^ 3 = c := by omega
  rw [h1, h2, h3]
  have h4 : 2 ^ 10 * a ||| 32 * b = 2 ^ 10 * a + 32 * b :=
    (Nat.mul_add_lt_is_or (by omega) a).symm
  rw [h4]
  have h5 : 2 ^ 10 * a + 32 * b = 2 ^ 5 * (32 * a + b) := by ring
  rw [h5, ← Nat.mul_add_lt_is_or (show c < 2 ^ 5 by omega)]
  ring

/-- `ImageGetPixel`'s 16bpp mask-and-shift triple recovers the three 5-bit
fields of a packed 16bpp word, each shifted into the top bits of a byte. -/
theorem rec16 (a b c : Nat) (ha : a < 32) (hb : b < 32) (hc : c < 32) :
    (((1024 * a + 32 * b + c) >>> 7) &&& 0xf8 = 8 * a) ∧
    (((1024 * a + 32 * b + c) >>> 2) &&& 0xf8 = 8 * b) ∧
    (((1024 * a + 32 * b + c) <<< 3) &&& 0xf8 = 8 * c) := by
  refine ⟨?_, ?_, ?_⟩
  · rw [Nat.shiftRight_eq_div_pow]
    have h : (1024 * a + 32 * b + c) / 2 ^ 7 = 8 * a + (32 * b + c) / 128 := by
      omega
    rw [h]
    exact and_f8_junk a ha _ (by omega)
  · rw [Nat.shiftRight_eq_div_pow]
    have h : (1024 * a + 32 * b + c) / 2 ^ 2 = 256 * a + (8 * b + c / 4) := by
      omega
    rw [h, and_mod_of_lt _ (show 0xf8 < 2 ^ 8 by norm_num)]
    have h2 : (256 * a + (8 * b + c / 4)) % 2 ^ 8 = 8 * b + c / 4 := by omega
    rw [h2]
    exact and_f8_junk b hb _ (by omega)
  · rw [Nat.shiftLeft_eq]
    have h : (1024 * a + 32 * b + c) * 2 ^ 3 = 256 * (32 * a + b) + 8 * c := by
      ring
    rw [h, and_mod_of_lt _ (show 0xf8 < 2 ^ 8 by norm_num)]
    have h2 : (256 * (32 * a + b) + 8 * c) % 2 ^ 8 = 8 * c := by omega
    rw [h2]
    simpa using and_f8_junk c hc 0 (by omega)

/-- The 8bpp byte assembled by `ImagePutPixel` from the 2-bit channel values
`a`, `b`, `c` packs them as `a·16 + b·4 + c`, and `ImageGetPixel`'s
shift-mask-replicate chain recovers each channel scaled by 85. -/
theorem round8 : ∀ a < 4, ∀ b < 4, ∀ c < 4,
    ((16 * a) ||| (4 * b) ||| c) < 256 ∧
    ((16 * a) ||| (4 * b) ||| c) = 16 * a + 4 * b + c ∧
    ((((16 * a + 4 * b + c) <<< 2) &&& 0xc0) |||
      ((((16 * a + 4 * b + c) <<< 2) &&& 0xc0) >>> 2 |||
       (((16 * a + 4 * b + c) <<< 2) &&& 0xc0) >>> 4 |||
       (((16 * a + 4 * b + c) <<< 2) &&& 0xc0) >>> 6) = 85 * a) ∧
    ((((16 * a + 4 * b + c) <<< 4) &&& 0xc0) |||
      ((((16 * a + 4 * b + c) <<< 4) &&& 0xc0) >>> 2 |||
       (((16 * a + 4 * b + c) <<< 4) &&& 0xc0) >>> 4 |||
       (((16 * a + 4 * b + c) <<< 4) &&& 0xc0) >>> 6) = 85 * b) ∧
    ((((16 * a + 4 * b + c) <<< 6) &&& 0xc0) |||
      ((((16 * a + 4 * b + c) <<< 6) &&& 0xc0) >>> 2 |||
       (((16 * a + 4 * b + c) <<< 6) &&& 0xc0) >>> 4 |||
       (((16 * a + 4 * b + c) <<< 6) &&& 0xc0) >>> 6) = 85 * c) := by
  decide

set_option maxRecDepth 8192 in
/-- Round trip of the 4bpp low nibble (an odd `x`): `ImagePutPixel` packs the
three channel top bits into the low nibble over any old byte, and
`ImageGetPixel`'s bit tests recover them. -/
theorem round4odd : ∀ a < 2, ∀ b < 2, ∀ c < 2, ∀ old < 256,
    ((old &&& 0xf0) ||| ((4 * a + 2 * b + c) &&& 0x0f)) < 256 ∧
    ((if ((old &&& 0xf0) ||| ((4 * a + 2 * b + c) &&& 0x0f)) &&& 0x04 ≠ 0 then
        (0xff : Nat) else 0) = 255 * a) ∧
    ((if ((old &&& 0xf0) ||| ((4 * a + 2 * b + c) &&& 0x0f)) &&& 0x02 ≠ 0 then
        (0xff : Nat) else 0) = 255 * b) ∧
    ((if ((old &&& 0xf0) ||| ((4 * a + 2 * b + c) &&& 0x0f)) &&& 0x01 ≠ 0 then
        (0xff : Nat) else 0) = 255 * c) := by
  decide

set_option maxRecDepth 8192 in
/-- Round trip of the 4bpp high nibble (an even `x`). -/
theorem round4even : ∀ a < 2, ∀ b < 2, ∀ c < 2, ∀ old < 256,
    ((old &&& 0x0f) ||| (((4 * a + 2 * b + c) <<< 4) &&& 0xf0)) < 256 ∧
    ((if (((old &&& 0x0f) |||
          (((4 * a + 2 * b + c) <<< 4) &&& 0xf0)) >>> 4) &&& 0x04 ≠ 0 then
        (0xff : Nat) else 0) = 255 * a) ∧
    ((if (((old &&& 0x0f) |||
          (((4 * a + 2 * b + c) <<< 4) &&& 0xf0)) >>> 4) &&& 0x02 ≠ 0 then
        (0xff : Nat) else 0) = 255 * b) ∧
    ((if (((old &&& 0x0f) |||
          (((4 * a + 2 * b + c) <<< 4) &&& 0xf0)) >>> 4) &&& 0x01 ≠ 0 then
        (0xff : Nat) else 0) = 255 * c) := by
  decide

/-- Putting the three channel top bits through the 4bpp pack expression. -/
theorem pack4 (a b c : Nat) (ha : a < 2) (hb : b < 2) (hc : c < 2) :
    ((128 * a) >>> 5) ||| ((128 * b) >>> 6) ||| ((128 * c) >>> 7)
      = 4 * a + 2 * b + c := by
  interval_cases a <;> interval_cases b <;> interval_cases c <;> decide

/-- Reading back the byte just stored. -/
theorem byteAt_writeByte (d : Nat → Nat) (i v : Nat) :
    byteAt (writeByte d i v) i = v % 256 := by
  simp [byteAt, writeByte]

/-- Reading back the 16-bit word just stored. -/
theorem word16At_writeWord16 (d : Nat → Nat) (i v : Nat) :
    word16At (writeWord16 d i v) i = v % 65536 := by
  have h1 : i + 1 ≠ i := by omega
  simp only [word16At, writeWord16, byteAt]
  simp [h1]
  omega

/-- Reading back the 32-bit word just stored. -/
theorem word32At_writeWord32 (d : Nat → Nat) (i v : Nat) :
    word32At (writeWord32 d i v) i = v % 4294967296 := by
  have h1 : i + 1 ≠ i := by omega
  have h2 : i + 2 ≠ i := by omega
  have h3 : i + 2 ≠ i + 1 := by omega
  have h4 : i + 3 ≠ i := by omega
  have h5 : i + 3 ≠ i + 1 := by omega
  have h6 : i + 3 ≠ i + 2 := by omega
  simp only [word32At, writeWord32, byteAt]
  simp [h1, h2, h3, h4, h5, h6]
  omega

/-- Extracting the red channel through the default red mask `0x00FF0000`. -/
theorem maskExtractRed (p : Nat) :
    ((p &&& 0xFF0000) >>> 16) &&& 0xff = p / 65536 % 256 := by
  have h0 : (0xFF0000 : Nat) = 255 <<< 16 := by decide
  rw [h0, and_shiftLeft_comm, Nat.shiftLeft_shiftRight, Nat.and_assoc]
  have h1 : (255 : Nat) &&& 0xff = 255 := by decide
  rw [h1]
  have h2 : (255 : Nat) = 2 ^ 8 - 1 := by norm_num
  rw [h2, Nat.and_pow_two_sub_one_eq_mod, Nat.shiftRight_eq_div_pow]

/-- Extracting the green channel through the default green mask `0x0000FF00`. -/
theorem maskExtractGreen (p : Nat) :
    ((p &&& 0xFF00) >>> 8) &&& 0xff = p / 256 % 256 := by
  have h0 : (0xFF00 : Nat) = 255 <<< 8 := by decide
  rw [h0, and_shiftLeft_comm, Nat.shiftLeft_shiftRight, Nat.and_assoc]
  have h1 : (255 : Nat) &&& 0xff = 255 := by decide
  rw [h1]
  have h2 : (255 : Nat) = 2 ^ 8 - 1 := by norm_num
  rw [h2, Nat.and_pow_two_sub_one_eq_mod, Nat.shiftRight_eq_div_pow]

/-- Extracting the blue channel through the default blue mask `0x000000FF`. -/
theorem maskExtractBlue (p : Nat) :
    (p &&& 0xFF) &&& 0xff = p % 256 := by
  rw [Nat.and_assoc]
  have h1 : (255 : Nat) &&& 0xff = 255 := by decide
  rw [h1]
  have h2 : (255 : Nat) = 2 ^ 8 - 1 := by norm_num
  rw [h2, Nat.and_pow_two_sub_one_eq_mod]

/-- A shifted value masked with `0xff` is a division-and-remainder. -/
theorem shiftAnd255 (p k : Nat) :
    (p >>> k) &&& 0xff = p / 2 ^ k % 256 := by
  have h2 : (0xff : Nat) = 2 ^ 8 - 1 := by norm_num
  rw [h2, Nat.and_pow_two_sub_one_eq_mod, Nat.shiftRight_eq_div_pow]

/-- Masking with `0xff` is reduction modulo 256. -/
theorem and255 (p : Nat) : p &&& 255 = p % 256 := by
  have h2 : (255 : Nat) = 2 ^ 8 - 1 := by norm_num
  rw [h2, Nat.and_pow_two_sub_one_eq_mod]

/-- C1: For every XImage with the default channel masks and
`bits_per_pixel` in 32, 16, 8, 4, an `ImagePutPixel` of `p` followed by an
`ImageGetPixel` at the same in-range coordinate yields 8-bit channel values
that agree with the corresponding 8-bit channels of `p` on their top
8, 5, 2 and 1 bits respectively (`s` is the per-depth truncation shift). -/
theorem c1_put_get_truncating_roundtrip (img : XImage) (d : Nat → Nat)
    (x y p dep s : Nat)
    (hdep : (dep, s) = (32, 0) ∨ (dep, s) = (16, 3) ∨ (dep, s) = (8, 6) ∨
      (dep, s) = (4, 7))
    (hbpp : img.bits_per_pixel = dep)
    (hdata : img.data = some d)
    (hred : img.red_mask = 0xFF0000)
    (hgreen : img.green_mask = 0x0000FF00)
    (hblue : img.blue_mask = 0x000000FF)
    (hx : x < img.width) (hy : y < img.height) :
    ((ImageGetChannels (ImagePutPixel (some img) x y p) x y).1 >>> s =
      ((p >>> 16) &&& 0xff) >>> s) ∧
    ((ImageGetChannels (ImagePutPixel (some img) x y p) x y).2.1 >>> s =
      ((p >>> 8) &&& 0xff) >>> s) ∧
    ((ImageGetChannels (ImagePutPixel (some img) x y p) x y).2.2 >>> s =
      (p &&& 0xff) >>> s) := by
  obtain ⟨w, h, xo, fmt, dat, bo, bu, bbo, bp, dp, bpl, bpp, rm, gm, bm⟩ := img
  simp only at hbpp hdata hred hgreen hblue hx hy
  subst hbpp hdata hred hgreen hblue
  have hpr : p / 65536 % 256 < 256 := by omega
  have hpg : p / 256 % 256 < 256 := by omega
  have hpb : p % 256 < 256 := by omega
  rcases hdep with hc | hc | hc | hc <;>
    obtain ⟨hd, hs⟩ := Prod.mk.inj hc <;> subst hd <;> subst hs
  · -- 32 bits per pixel
    refine ⟨?_, ?_, ?_⟩ <;>
    · simp [ImagePutPixel, ImageGetChannels, pixelOffset]
      rw [word32At_writeWord32, Nat.mod_mod_of_dvd _ (by norm_num)]
      first
      | (rw [shiftAnd255, shiftAnd255]; omega)
      | (simp only [and255]; omega)
  · -- 16 bits per pixel
    refine ⟨?_, ?_, ?_⟩ <;>
    · simp [ImagePutPixel, ImageGetChannels, pixelOffset]
      rw [maskExtractRed, maskExtractGreen, maskExtractBlue,
        and_f8_eq _ hpr, and_f8_eq _ hpg, and_f8_eq _ hpb,
        pack16 _ _ _ (by omega) (by omega) (by omega),
        word16At_writeWord16, Nat.mod_eq_of_lt (by omega)]
      first
      | rw [(rec16 _ _ _ (by omega) (by omega) (by omega)).1]
      | rw [(rec16 _ _ _ (by omega) (by omega) (by omega)).2.1]
      | rw [(rec16 _ _ _ (by omega) (by omega) (by omega)).2.2]
      first
      | rw [shiftAnd255]
      | rw [and255]
      rw [Nat.shiftRight_eq_div_pow, Nat.shiftRight_eq_div_pow]
      omega
  · -- 8 bits per pixel
    refine ⟨?_, ?_, ?_⟩ <;>
    · simp [ImagePutPixel, ImageGetChannels, pixelOffset]
      rw [maskExtractRed, maskExtractGreen, maskExtractBlue,
        and_c0_eq _ hpr, and_c0_eq _ hpg, and_c0_eq _ hpb]
      rw [show (64 * (p / 65536 % 256 / 64)) >>> 2 =
        16 * (p / 65536 % 256 / 64) from by
          rw [Nat.shiftRight_eq_div_pow]; omega]
      rw [show (64 * (p / 256 % 256 / 64)) >>> 4 =
        4 * (p / 256 % 256 / 64) from by
          rw [Nat.shiftRight_eq_div_pow]; omega]
      rw [show (64 * (p % 256 / 64)) >>> 6 = p % 256 / 64 from by
          rw [Nat.shiftRight_eq_div_pow]; omega]
      obtain ⟨hlt, hsum, hr8, hg8, hb8⟩ :=
        round8 (p / 65536 % 256 / 64) (by omega) (p / 256 % 256 / 64)
          (by omega) (p % 256 / 64) (by omega)
      rw [hsum, byteAt_writeByte, Nat.mod_eq_of_lt (by omega)]
      first
      | rw [hr8]
      | rw [hg8]
      | rw [hb8]
      first
      | rw [shiftAnd255]
      | rw [and255]
      rw [Nat.shiftRight_eq_div_pow, Nat.shiftRight_eq_div_pow]
      omega
  · -- 4 bits per pixel
    by_cases hpar : x % 2 = 0
    · -- even x: the high nibble
      refine ⟨?_, ?_, ?_⟩ <;>
      · simp [ImagePutPixel, ImageGetChannels, pixelOffset, hpar]
        rw [maskExtractRed, maskExtractGreen, maskExtractBlue,
          and_80_eq _ hpr, and_80_eq _ hpg, and_80_eq _ hpb,
          pack4 _ _ _ (by omega) (by omega) (by omega)]
        obtain ⟨hlt, ha4, hb4, hc4⟩ := round4even (p / 65536 % 256 / 128)
          (by omega) (p / 256 % 256 / 128) (by omega) (p % 256 / 128)
          (by omega) (byteAt d (y * bpl + (xo + x) * 4 / NBBY))
          (Nat.mod_lt _ (by norm_num))
        rw [byteAt_writeByte]
        rw [Nat.mod_eq_of_lt hlt]
        simp only [ne_eq, Nat.and_one_is_mod, Nat.mod_two_ne_zero, ite_not] at ha4 hb4 hc4
        first
        | rw [ha4]
        | rw [hb4]
        | rw [hc4]
        first
        | rw [shiftAnd255]
        | rw [and255]
        rw [Nat.shiftRight_eq_div_pow, Nat.shiftRight_eq_div_pow]
        omega
    · -- odd x: the low nibble
      refine ⟨?_, ?_, ?_⟩ <;>
      · simp [ImagePutPixel, ImageGetChannels, pixelOffset, hpar]
        rw [maskExtractRed, maskExtractGreen, maskExtractBlue,
          and_80_eq _ hpr, and_80_eq _ hpg, and_80_eq _ hpb,
          pack4 _ _ _ (by omega) (by omega) (by omega)]
        obtain ⟨hlt, ha4, hb4, hc4⟩ := round4odd (p / 65536 % 256 / 128)
          (by omega) (p / 256 % 256 / 128) (by omega) (p % 256 / 128)
          (by omega) (byteAt d (y * bpl + (xo + x) * 4 / NBBY))
          (Nat.mod_lt _ (by norm_num))
        rw [byteAt_writeByte]
        rw [Nat.mod_eq_of_lt hlt]
        simp only [ne_eq, Nat.and_one_is_mod, Nat.mod_two_ne_zero, ite_not] at ha4 hb4 hc4
        first
        | rw [ha4]
        | rw [hb4]
        | rw [hc4]
        first
        | rw [shiftAnd255]
        | rw [and255]
        rw [Nat.shiftRight_eq_div_pow, Nat.shiftRight_eq_div_pow]
        omega

/-- Concrete 16bpp XImage used to witness the round-trip theorem. -/
def c1image : XImage :=
  { width := 2, height := 1, xoffset := 0, format := 2,
    data := some (fun _ => 0), byte_order := 0, bitmap_unit := 32,
    bitmap_bit_order := 0, bitmap_pad := 32, depth := 16,
    bytes_per_line := 8, bits_per_pixel := 16,
    red_mask := 0xFF0000, green_mask := 0x0000FF00, blue_mask := 0x000000FF }

/-- Witness for the round-trip theorem at a concrete 16bpp image, pixel
`0x123456`, coordinate `(1, 0)`. -/
theorem c1_witness :
    ((ImageGetChannels (ImagePutPixel (some c1image) 1 0 0x123456) 1 0).1 >>> 3 =
      ((0x123456 >>> 16) &&& 0xff) >>> 3) ∧
    ((ImageGetChannels (ImagePutPixel (some c1image) 1 0 0x123456) 1 0).2.1 >>> 3 =
      ((0x123456 >>> 8) &&& 0xff) >>> 3) ∧
    ((ImageGetChannels (ImagePutPixel (some c1image) 1 0 0x123456) 1 0).2.2 >>> 3 =
      (0x123456 &&& 0xff) >>> 3) :=
  c1_put_get_truncating_roundtrip c1image (fun _ => 0) 1 0 0x123456 16 3
    (Or.inr (Or.inl rfl)) rfl rfl rfl rfl rfl (by decide) (by decide)

set_option maxRecDepth 4096 in
/-- The 8bpp shift-mask-replicate chains of `ImageGetPixel` expand each 2-bit
field of the stored byte to the byte `c * 85`. -/
theorem c2dep8 : ∀ v < 256,
    (((v <<< 2) &&& 0xc0) ||| (((v <<< 2) &&& 0xc0) >>> 2 |||
      ((v <<< 2) &&& 0xc0) >>> 4 ||| ((v <<< 2) &&& 0xc0) >>> 6) =
        v / 16 % 4 * 85) ∧
    (((v <<< 4) &&& 0xc0) ||| (((v <<< 4) &&& 0xc0) >>> 2 |||
      ((v <<< 4) &&& 0xc0) >>> 4 ||| ((v <<< 4) &&& 0xc0) >>> 6) =
        v / 4 % 4 * 85) ∧
    (((v <<< 6) &&& 0xc0) ||| (((v <<< 6) &&& 0xc0) >>> 2 |||
      ((v <<< 6) &&& 0xc0) >>> 4 ||| ((v <<< 6) &&& 0xc0) >>> 6) =
        v % 4 * 85) := by
  decide

set_option maxRecDepth 4096 in
/-- The 4bpp bit tests of `ImageGetPixel` read single bits of the nibble. -/
theorem c2dep4 : ∀ v < 256,
    ((v &&& 0x04 ≠ 0) ↔ v / 4 % 2 = 1) ∧
    ((v &&& 0x02 ≠ 0) ↔ v / 2 % 2 = 1) ∧
    ((v &&& 0x01 ≠ 0) ↔ v % 2 = 1) := by
  decide

set_option maxRecDepth 8192 in
/-- The 1bpp bit test of `ImageGetPixel` reads bit `7 - x % 8` of the byte. -/
theorem c2dep1 : ∀ v < 256, ∀ k < 8,
    ((v &&& (0x80 >>> k) ≠ 0) ↔ v / 2 ^ (7 - k) % 2 = 1) := by
  decide

/-- C2: `ImageGetPixel` converts the stored pixel to 8-bit channels by a
fixed per-depth rule covering the depths 32, 16, 8, 4 and 1: at 32 each
channel is the corresponding byte of the 32-bit word; at 16 each 5-bit
channel `c` becomes `c * 8`; at 8 each 2-bit channel `c` becomes `c * 85`;
at 4 a set channel bit gives 255, a clear one 0; at 1 all three channels
are 255 exactly when the addressed bit is set. -/
theorem c2_get_pixel_depth_rules (img : XImage) (d : Nat → Nat) (x y : Nat)
    (hdata : img.data = some d) :
    (img.bits_per_pixel = 32 →
      ImageGetChannels (some img) x y =
        (word32At d (pixelOffset img x y) / 65536 % 256,
         word32At d (pixelOffset img x y) / 256 % 256,
         word32At d (pixelOffset img x y) % 256)) ∧
    (img.bits_per_pixel = 16 →
      ImageGetChannels (some img) x y =
        (word16At d (pixelOffset img x y) / 1024 % 32 * 8,
         word16At d (pixelOffset img x y) / 32 % 32 * 8,
         word16At d (pixelOffset img x y) % 32 * 8)) ∧
    (img.bits_per_pixel = 8 →
      ImageGetChannels (some img) x y =
        (byteAt d (pixelOffset img x y) / 16 % 4 * 85,
         byteAt d (pixelOffset img x y) / 4 % 4 * 85,
         byteAt d (pixelOffset img x y) % 4 * 85)) ∧
    (img.bits_per_pixel = 4 →
      ImageGetChannels (some img) x y =
        ((if (if x % 2 ≠ 0 then byteAt d (pixelOffset img x y)
              else byteAt d (pixelOffset img x y) / 16) / 4 % 2 = 1 then 255
          else 0),
         (if (if x % 2 ≠ 0 then byteAt d (pixelOffset img x y)
              else byteAt d (pixelOffset img x y) / 16) / 2 % 2 = 1 then 255
          else 0),
         (if (if x % 2 ≠ 0 then byteAt d (pixelOffset img x y)
              else byteAt d (pixelOffset img x y) / 16) % 2 = 1 then 255
          else 0))) ∧
    (img.bits_per_pixel = 1 →
      ImageGetChannels (some img) x y =
        (if byteAt d (pixelOffset img x y) / 2 ^ (7 - x % 8) % 2 = 1 then
          (255, 255, 255) else (0, 0, 0))) := by
  obtain ⟨w, h, xo, fmt, dat, bo, bu, bbo, bp, dp, bpl, bpp, rm, gm, bm⟩ := img
  simp only at hdata
  subst hdata
  have hb : ∀ i, byteAt d i < 256 := fun i => Nat.mod_lt _ (by norm_num)
  refine ⟨?_, ?_, ?_, ?_, ?_⟩ <;> intro hbpp <;>
    simp only at hbpp <;> subst hbpp
  · -- 32 bpp
    simp only [ImageGetChannels, pixelOffset]
    rw [shiftAnd255, shiftAnd255, and255]
    norm_num
  · -- 16 bpp
    simp only [ImageGetChannels, pixelOffset]
    have hf8 : (0xf8 : Nat) = 31 <<< 3 := by decide
    rw [hf8, and_shiftLeft_comm, and_shiftLeft_comm, and_shiftLeft_comm,
      Nat.shiftLeft_shiftRight, ← Nat.shiftRight_add, ← Nat.shiftRight_add]
    have h31 : (31 : Nat) = 2 ^ 5 - 1 := by norm_num
    rw [h31, Nat.and_pow_two_sub_one_eq_mod, Nat.and_pow_two_sub_one_eq_mod,
      Nat.and_pow_two_sub_one_eq_mod, Nat.shiftRight_eq_div_pow,
      Nat.shiftRight_eq_div_pow, Nat.shiftLeft_eq, Nat.shiftLeft_eq,
      Nat.shiftLeft_eq]
  · -- 8 bpp
    simp only [ImageGetChannels, pixelOffset]
    obtain ⟨h1, h2, h3⟩ := c2dep8 _ (hb (y * bpl + (xo + x) * 8 / NBBY))
    rw [h1, h2, h3]
  · -- 4 bpp
    simp only [ImageGetChannels, pixelOffset]
    have hoff := hb (y * bpl + (xo + x) * 4 / NBBY)
    have hv : byteAt d (y * bpl + (xo + x) * 4 / NBBY) >>> 4 =
        byteAt d (y * bpl + (xo + x) * 4 / NBBY) / 16 := by
      rw [Nat.shiftRight_eq_div_pow]
    rw [hv]
    have hN : (if x % 2 ≠ 0 then byteAt d (y * bpl + (xo + x) * 4 / NBBY)
        else byteAt d (y * bpl + (xo + x) * 4 / NBBY) / 16) < 256 := by
      split
      · exact hoff
      · omega
    obtain ⟨h1, h2, h3⟩ := c2dep4 _ hN
    simp only [Prod.mk.injEq]
    exact ⟨if_congr h1 rfl rfl, ⟨if_congr h2 rfl rfl, if_congr h3 rfl rfl⟩⟩
  · -- 1 bpp
    simp only [ImageGetChannels, pixelOffset]
    have hoff := hb (y * bpl + (xo + x) * 1 / NBBY)
    have hiff := c2dep1 _ hoff (x % 8) (Nat.mod_lt _ (by norm_num))
    by_cases hbit :
        byteAt d (y * bpl + (xo + x) * 1 / NBBY) / 2 ^ (7 - x % 8) % 2 = 1
    · rw [if_pos hbit, if_pos (hiff.mpr hbit)]
    · rw [if_neg hbit, if_neg (fun hc => hbit (hiff.mp hc))]

/-- Concrete 8bpp XImage whose single pixel byte is `0x6C`. -/
def c2image : XImage :=
  { width := 2, height := 1, xoffset := 0, format := 2,
    data := some (fun _ => 0x6C), byte_order := 0, bitmap_unit := 32,
    bitmap_bit_order := 0, bitmap_pad := 32, depth := 8,
    bytes_per_line := 4, bits_per_pixel := 8,
    red_mask := 0xFF0000, green_mask := 0x0000FF00, blue_mask := 0x000000FF }

/-- Witness for the per-depth conversion rule at the concrete 8bpp image. -/
theorem c2_witness :
    ImageGetChannels (some c2image) 1 0 =
      (byteAt (fun _ => 0x6C) (pixelOffset c2image 1 0) / 16 % 4 * 85,
       byteAt (fun _ => 0x6C) (pixelOffset c2image 1 0) / 4 % 4 * 85,
       byteAt (fun _ => 0x6C) (pixelOffset c2image 1 0) % 4 * 85) :=
  (c2_get_pixel_depth_rules c2image (fun _ => 0x6C) 1 0 rfl).2.2.1 rfl

/-- C10: `ImageGetPixel` is total and defaults to black — a NULL image, a
NULL data pointer, or an unsupported `bits_per_pixel` produces
`TkMacOSXRGBPixel(0, 0, 0)` without reading the buffer — and `ImagePutPixel`
leaves everything unchanged when the image or its data pointer is NULL. -/
theorem c10_null_and_default_safety (img : XImage) (d : Nat → Nat)
    (x y p : Nat) :
    (ImageGetPixel none x y = TkMacOSXRGBPixel 0 0 0) ∧
    (img.data = none → ImageGetPixel (some img) x y = TkMacOSXRGBPixel 0 0 0) ∧
    (img.data = some d → img.bits_per_pixel ≠ 1 → img.bits_per_pixel ≠ 4 →
      img.bits_per_pixel ≠ 8 → img.bits_per_pixel ≠ 16 →
      img.bits_per_pixel ≠ 32 →
      ImageGetPixel (some img) x y = TkMacOSXRGBPixel 0 0 0) ∧
    (ImagePutPixel none x y p = none) ∧
    (img.data = none → ImagePutPixel (some img) x y p = some img) := by
  obtain ⟨w, h, xo, fmt, dat, bo, bu, bbo, bp, dp, bpl, bpp, rm, gm, bm⟩ := img
  refine ⟨rfl, ?_, ?_, rfl, ?_⟩
  · intro hdat
    simp only at hdat
    subst hdat
    rfl
  · intro hdat h1 h4 h8 h16 h32
    simp only at hdat h1 h4 h8 h16 h32
    subst hdat
    simp only [ImageGetPixel, ImageGetChannels]
  · intro hdat
    simp only at hdat
    subst hdat
    rfl

/-- Concrete XImage with a NULL data pointer and unsupported depth 7. -/
def c10image : XImage :=
  { width := 2, height := 1, xoffset := 0, format := 2,
    data := none, byte_order := 0, bitmap_unit := 32,
    bitmap_bit_order := 0, bitmap_pad := 32, depth := 7,
    bytes_per_line := 4, bits_per_pixel := 7,
    red_mask := 0xFF0000, green_mask := 0x0000FF00, blue_mask := 0x000000FF }

/-- Concrete XImage with data but unsupported depth 7. -/
def c10image2 : XImage :=
  { c10image with data := some (fun _ => 9) }

/-- Witness for the null-safety theorem: a NULL data pointer and an
unsupported bit depth both produce black, and the put is a no-op. -/
theorem c10_witness :
    (ImageGetPixel (some c10image) 0 0 = TkMacOSXRGBPixel 0 0 0) ∧
    (ImageGetPixel (some c10image2) 0 0 = TkMacOSXRGBPixel 0 0 0) ∧
    (ImagePutPixel (some c10image) 0 0 5 = some c10image) :=
  ⟨(c10_null_and_default_safety c10image (fun _ => 9) 0 0 5).2.1 rfl,
   (c10_null_and_default_safety c10image2 (fun _ => 9) 0 0 5).2.2.1 rfl
     (by decide) (by decide) (by decide) (by decide) (by decide),
   (c10_null_and_default_safety c10image (fun _ => 9) 0 0 5).2.2.2.2 rfl⟩

/-- C9: `TkMacOSXCreateCGImageWithXImage` creates no native image unless the
XImage is a 1bpp bitmap or a 32bpp ZPixmap with a nonzero dimension. -/
theorem c9_create_cgimage_nullness (img : XImage) (alphaInfo : Nat) :
    (img.bits_per_pixel ≠ 1 → img.bits_per_pixel ≠ 32 →
      TkMacOSXCreateCGImageWithXImage img alphaInfo = none) ∧
    (img.bits_per_pixel = 32 → img.format ≠ ZPixmap →
      TkMacOSXCreateCGImageWithXImage img alphaInfo = none) ∧
    (img.bits_per_pixel = 32 → img.format = ZPixmap → img.width = 0 →
      img.height = 0 → TkMacOSXCreateCGImageWithXImage img alphaInfo = none) ∧
    (TkMacOSXCreateCGImageWithXImage img alphaInfo ≠ none →
      img.bits_per_pixel = 1 ∨ (img.bits_per_pixel = 32 ∧
        img.format = ZPixmap ∧ ¬(img.width = 0 ∧ img.height = 0))) := by
  refine ⟨?_, ?_, ?_, ?_⟩
  · intro h1 h32
    simp [TkMacOSXCreateCGImageWithXImage, h1, h32]
  · intro h32 hfmt
    simp [TkMacOSXCreateCGImageWithXImage, h32, hfmt]
  · intro h32 hfmt hw hh
    simp [TkMacOSXCreateCGImageWithXImage, h32, hfmt, hw, hh]
  · intro hne
    by_cases h1 : img.bits_per_pixel = 1
    · exact Or.inl h1
    · by_cases hz : img.format = ZPixmap ∧ img.bits_per_pixel = 32
      · by_cases hwh : img.width = 0 ∧ img.height = 0
        · exact absurd (by
            simp [TkMacOSXCreateCGImageWithXImage, h1, hz.1, hz.2,
              hwh.1, hwh.2]) hne
        · exact Or.inr ⟨hz.2, hz.1, hwh⟩
      · exact absurd (by
          simp only [TkMacOSXCreateCGImageWithXImage, if_neg h1,
            if_neg hz]) hne

/-- Concrete unsupported-depth image for the CGImage nullness witness. -/
def c9image : XImage :=
  { width := 3, height := 2, xoffset := 0, format := 2,
    data := some (fun _ => 1), byte_order := 0, bitmap_unit := 32,
    bitmap_bit_order := 0, bitmap_pad := 32, depth := 16,
    bytes_per_line := 8, bits_per_pixel := 16,
    red_mask := 0xFF0000, green_mask := 0x0000FF00, blue_mask := 0x000000FF }

/-- Witness: a 16bpp image is refused by `TkMacOSXCreateCGImageWithXImage`. -/
theorem c9_witness :
    TkMacOSXCreateCGImageWithXImage c9image 3 = none :=
  (c9_create_cgimage_nullness c9image 3).1 (by decide) (by decide)

/-- Masking a 32-bit value with the two's-complement mask `2^32 - 2^j`
rounds it down to a multiple of `2^j`. -/
theorem and_neg_pow_two (x j : Nat) (hj : j ≤ 32) (hx : x < 4294967296) :
    x &&& (4294967296 - 2 ^ j) = x / 2 ^ j * 2 ^ j := by
  have hsplit : (4294967296 : Nat) - 2 ^ j = (2 ^ (32 - j) - 1) <<< j := by
    rw [Nat.shiftLeft_eq, Nat.sub_mul, one_mul, ← Nat.pow_add,
      Nat.sub_add_cancel hj]
  rw [hsplit, and_shiftLeft_comm]
  have h1 : (x >>> j) &&& (2 ^ (32 - j) - 1) = x >>> j % 2 ^ (32 - j) :=
    Nat.and_pow_two_sub_one_eq_mod _ _
  rw [h1, Nat.shiftRight_eq_div_pow, Nat.shiftLeft_eq]
  have hlt : x / 2 ^ j < 2 ^ (32 - j) := by
    rw [Nat.div_lt_iff_lt_mul (Nat.pos_pow_of_pos j (by norm_num)),
      ← Nat.pow_add, Nat.sub_add_cancel hj]
    exact lt_of_lt_of_le hx (by norm_num)
  rw [Nat.mod_eq_of_lt hlt]

/-- C3 (amended with the no-overflow condition): for a zero `bytes_per_line`
argument and a `bitmap_pad` that is zero (defaulted to 128 = 2^7) or a power
of two at least 8, if `width * bits_per_pixel + pad` does not exceed `2^32`
(the 32-bit arithmetic of the stride computation does not wrap), the
computed `bytes_per_line` is a multiple of `pad / 8` bytes and at least
`ceil(width * bits_per_pixel / 8)`, and the byte-buffer length used when
the image is converted to a native CGImage is `bytes_per_line * height`. -/
theorem c3_stride_aligned_and_sufficient (depth format offset : Nat)
    (data : Option (Nat → Nat)) (width height bitmap_pad k : Nat)
    (hk : 3 ≤ k)
    (hpad : bitmap_pad = 2 ^ k ∨ (bitmap_pad = 0 ∧ k = 7))
    (hov : width * (if format = ZPixmap then 32 else 1) + 2 ^ k ≤ 4294967296) :
    (2 ^ k / 8 ∣
      (XCreateImage depth format offset data width height bitmap_pad
        0).bytes_per_line) ∧
    ((width * (if format = ZPixmap then 32 else 1) + 7) / 8 ≤
      (XCreateImage depth format offset data width height bitmap_pad
        0).bytes_per_line) ∧
    (∀ a cg, TkMacOSXCreateCGImageWithXImage
        (XCreateImage depth format offset data width height bitmap_pad 0) a =
          some cg →
      cg.dataLen =
        (XCreateImage depth format offset data width height bitmap_pad
          0).bytes_per_line *
          (XCreateImage depth format offset data width height bitmap_pad
            0).height) := by
  have hk32 : k ≤ 32 := by
    by_contra hgt
    have h33 : (2 : Nat) ^ 33 ≤ 2 ^ k :=
      Nat.pow_le_pow_right (by norm_num) (by omega)
    have h33v : (2 : Nat) ^ 33 = 8589934592 := by norm_num
    omega
  set bpp := (if format = ZPixmap then 32 else 1) with hbpp
  have hbpl : (XCreateImage depth format offset data width height bitmap_pad
      0).bytes_per_line =
      (width * bpp + 2 ^ k - 1) / 2 ^ 3 / 2 ^ (k - 3) * 2 ^ (k - 3) := by
    have hpadval : (if bitmap_pad ≠ 0 then bitmap_pad else 128) = 2 ^ k := by
      rcases hpad with hp | ⟨hp, hk7⟩
      · have : bitmap_pad ≠ 0 := by
          rw [hp]; exact Nat.pos_iff_ne_zero.mp (Nat.pos_pow_of_pos _ (by norm_num))
        simp [this, hp]
      · simp [hp, hk7]
    simp only [XCreateImage, if_neg (by simp : ¬(0 : Nat) ≠ 0), hpadval, ← hbpp]
    have hm1 : (width * bpp + (2 ^ k - 1)) % 4294967296 =
        width * bpp + 2 ^ k - 1 := by
      have h1 : (1 : Nat) ≤ 2 ^ k := Nat.one_le_two_pow
      rw [Nat.mod_eq_of_lt (by omega)]
      omega
    rw [hm1]
    have hshift : 2 ^ k >>> 3 = 2 ^ (k - 3) := by
      rw [Nat.shiftRight_eq_div_pow, Nat.pow_div hk (by norm_num)]
    rw [hshift]
    have hm2 : (4294967296 - 2 ^ (k - 3)) % 4294967296 =
        4294967296 - 2 ^ (k - 3) := by
      have h1 : (1 : Nat) ≤ 2 ^ (k - 3) := Nat.one_le_two_pow
      have h2 : 2 ^ (k - 3) ≤ 2 ^ k := Nat.pow_le_pow_right (by norm_num) (by omega)
      rw [Nat.mod_eq_of_lt (by omega)]
    rw [hm2, Nat.shiftRight_eq_div_pow]
    rw [and_neg_pow_two _ _ (by omega) (by
      have h1 : (1 : Nat) ≤ 2 ^ k := Nat.one_le_two_pow
      omega)]
  refine ⟨?_, ?_, ?_⟩
  · rw [hbpl, Nat.pow_div hk (by norm_num)]
    exact Dvd.intro _ (Nat.mul_comm _ _)
  · rw [hbpl]
    have h8t : 2 ^ k = 8 * 2 ^ (k - 3) := by
      rw [show (8 : Nat) = 2 ^ 3 from by norm_num, ← Nat.pow_add]
      congr 1
      omega
    have ht : 0 < 2 ^ (k - 3) := Nat.pos_pow_of_pos _ (by norm_num)
    set t := 2 ^ (k - 3) with hts
    set x := (width * bpp + 2 ^ k - 1) / 2 ^ 3 with hxs
    have hdm := Nat.div_add_mod x t
    have hmlt : x % t < t := Nat.mod_lt _ ht
    rw [Nat.mul_comm] at hdm
    have hxval : x = (width * bpp + 8 * t - 1) / 8 := by
      rw [hxs, h8t]
      norm_num
    omega
  · intro a cg hcg
    simp only [TkMacOSXCreateCGImageWithXImage] at hcg
    split at hcg
    · cases hcg
      rfl
    · split at hcg
      · split at hcg
        · cases hcg
        · cases hcg
          rfl
      · cases hcg

/-- Counterexample input to the unamended stride claim: a 2^27-pixel-wide
32bpp ZPixmap with bitmap_pad 8 and zero bytes_per_line wraps the 32-bit
stride computation to 0. -/
theorem c3_overflow_counterexample :
    (XCreateImage 32 ZPixmap 0 none 134217728 1 8 0).bytes_per_line <
      (134217728 * 32 + 7) / 8 := by
  decide

/-- Witness for the amended stride invariant at a 5-pixel-wide ZPixmap with
defaulted bitmap_pad. -/
theorem c3_witness :
    (2 ^ 7 / 8 ∣ (XCreateImage 24 ZPixmap 0 none 5 3 0 0).bytes_per_line) ∧
    ((5 * (if ZPixmap = ZPixmap then 32 else 1) + 7) / 8 ≤
      (XCreateImage 24 ZPixmap 0 none 5 3 0 0).bytes_per_line) ∧
    (∀ a cg, TkMacOSXCreateCGImageWithXImage
        (XCreateImage 24 ZPixmap 0 none 5 3 0 0) a = some cg →
      cg.dataLen = (XCreateImage 24 ZPixmap 0 none 5 3 0 0).bytes_per_line *
        (XCreateImage 24 ZPixmap 0 none 5 3 0 0).height) :=
  c3_stride_aligned_and_sufficient 24 ZPixmap 0 none 5 3 0 7 (by norm_num)
    (Or.inr ⟨rfl, rfl⟩) (by norm_num)

/-- The alert block keeps the given globals and its status and trace do not
depend on them. -/
theorem alertBlock_spec (env : PrintEnv) (st1 st2 : PrintGlobals) (s : Int) :
    (FinishPrintAlertBlock env st1 s).2.1 = st1 ∧
    (FinishPrintAlertBlock env st1 s).1 = (FinishPrintAlertBlock env st2 s).1 ∧
    (FinishPrintAlertBlock env st1 s).2.2 =
      (FinishPrintAlertBlock env st2 s).2.2 := by
  unfold FinishPrintAlertBlock
  by_cases c : s = noErr ∧ (env.destination ≠ kPMDestinationPreview ∨
      kPMDestinationFile ≠ 0 ∨ kPMDestinationPrinter ≠ 0)
  · simp [if_pos c]
  · simp [if_neg c]

/-- The preview block keeps the given globals and its status and trace do
not depend on them. -/
theorem previewBlock_spec (env : PrintEnv) (st1 st2 : PrintGlobals) (s : Int) :
    (FinishPrintPreviewBlock env st1 s).2.1 = st1 ∧
    (FinishPrintPreviewBlock env st1 s).1 =
      (FinishPrintPreviewBlock env st2 s).1 ∧
    (FinishPrintPreviewBlock env st1 s).2.2 =
      (FinishPrintPreviewBlock env st2 s).2.2 := by
  unfold FinishPrintPreviewBlock
  by_cases c : s = noErr ∧ env.destination = kPMDestinationPreview
  · simp [if_pos c]
  · simp only [if_neg c]; exact alertBlock_spec env st1 st2 s

/-- The file block keeps the given globals and its status and trace do not
depend on them. -/
theorem fileBlock_spec (env : PrintEnv) (st1 st2 : PrintGlobals) (s : Int) :
    (FinishPrintFileBlock env st1 s).2.1 = st1 ∧
    (FinishPrintFileBlock env st1 s).1 = (FinishPrintFileBlock env st2 s).1 ∧
    (FinishPrintFileBlock env st1 s).2.2 =
      (FinishPrintFileBlock env st2 s).2.2 := by
  unfold FinishPrintFileBlock
  by_cases cA : s = noErr ∧ env.destination = kPMDestinationFile
  · simp only [if_pos cA]
    by_cases cB : env.copyDestinationStatus = noErr
    · simp [if_pos cB]
    · simp only [if_neg cB]
      exact previewBlock_spec env st1 st2 env.copyDestinationStatus
  · simp only [if_neg cA]
    exact previewBlock_spec env st1 st2 s

/-- The status and effect trace of `FinishPrint` depend on the globals only
through `urlFile`. -/
theorem finishprint_behaviour_congr (env : PrintEnv) (file : Option String)
    (b : Int) (st st' : PrintGlobals) (h : st.urlFile = st'.urlFile) :
    (FinishPrint env st file b).1 = (FinishPrint env st' file b).1 ∧
    (FinishPrint env st file b).2.2 = (FinishPrint env st' file b).2.2 := by
  unfold FinishPrint
  rw [h]
  by_cases c0 : b = NSModalResponseCancel
  · simp [if_pos c0]
  simp only [if_neg c0]
  by_cases c1 : env.createSessionStatus ≠ noErr
  · simp [if_pos c1]
  simp only [if_neg c1]
  by_cases c2 : env.createSettingsStatus ≠ noErr
  · simp [if_pos c2]
  simp only [if_neg c2]
  by_cases c3 : env.defaultSettingsStatus ≠ noErr
  · simp [if_pos c3]
  simp only [if_neg c3]
  by_cases c4 : b = NSModalResponseOK
  · simp only [if_pos c4]
    by_cases c5 : st'.urlFile = none
    · simp [if_pos c5]
    simp only [if_neg c5]
    by_cases c6 : env.getDestinationStatus = noErr ∧
        env.destination = kPMDestinationPrinter
    · simp only [if_pos c6]
      by_cases c7 : env.getCurrentPrinterStatus = noErr
      · simp only [if_pos c7]
        by_cases c8 : env.getMimeTypesStatus = noErr ∧
            env.mimeTypesNonNull = true
        · simp only [if_pos c8]
          by_cases c9 : env.mimeTypesContainPDF = true
          · simp [if_pos c9]
          · simp only [if_neg c9]
            exact ⟨(fileBlock_spec env _ _ _).2.1, (fileBlock_spec env _ _ _).2.2⟩
        · simp only [if_neg c8]
          exact ⟨(fileBlock_spec env _ _ _).2.1, (fileBlock_spec env _ _ _).2.2⟩
      · simp only [if_neg c7]
        exact ⟨(fileBlock_spec env _ _ _).2.1, (fileBlock_spec env _ _ _).2.2⟩
    · simp only [if_neg c6]
      exact ⟨(fileBlock_spec env _ _ _).2.1, (fileBlock_spec env _ _ _).2.2⟩
  · simp [if_neg c4]

/-- `FinishPrint` called on the current `fileName` leaves the `fileName` and
`urlFile` globals with their current values. -/
theorem finishprint_globals (env : PrintEnv) (st : PrintGlobals) (b : Int) :
    (FinishPrint env st st.fileName b).2.1.fileName = st.fileName ∧
    (FinishPrint env st st.fileName b).2.1.urlFile = st.urlFile := by
  unfold FinishPrint
  by_cases c0 : b = NSModalResponseCancel
  · simp [if_pos c0]
  simp only [if_neg c0]
  by_cases c1 : env.createSessionStatus ≠ noErr
  · simp [if_pos c1]
  simp only [if_neg c1]
  by_cases c2 : env.createSettingsStatus ≠ noErr
  · simp [if_pos c2]
  simp only [if_neg c2]
  by_cases c3 : env.defaultSettingsStatus ≠ noErr
  · simp [if_pos c3]
  simp only [if_neg c3]
  by_cases c4 : b = NSModalResponseOK
  · simp only [if_pos c4]
    by_cases c5 : st.urlFile = none
    · simp [if_pos c5]
    simp only [if_neg c5]
    by_cases c6 : env.getDestinationStatus = noErr ∧
        env.destination = kPMDestinationPrinter
    · simp only [if_pos c6]
      by_cases c7 : env.getCurrentPrinterStatus = noErr
      · simp only [if_pos c7]
        by_cases c8 : env.getMimeTypesStatus = noErr ∧
            env.mimeTypesNonNull = true
        · simp only [if_pos c8]
          by_cases c9 : env.mimeTypesContainPDF = true
          · simp only [if_pos c9]
            constructor <;>
            · simp only [releaseURLFile]
              split <;> rfl
          · simp only [if_neg c9]
            rw [(fileBlock_spec env _ st env.getMimeTypesStatus).1]
            exact ⟨rfl, rfl⟩
        · simp only [if_neg c8]
          rw [(fileBlock_spec env _ st env.getMimeTypesStatus).1]
          exact ⟨rfl, rfl⟩
      · simp only [if_neg c7]
        rw [(fileBlock_spec env _ st env.getCurrentPrinterStatus).1]
        exact ⟨rfl, rfl⟩
    · simp only [if_neg c6]
      rw [(fileBlock_spec env _ st env.getDestinationStatus).1]
      exact ⟨rfl, rfl⟩
  · simp [if_neg c4]

/-- C4 (amended): how `FinishPrint` interprets the chosen destination, under
successful session setup.  Cancel returns `noErr` with no effects; a printer
destination prints the file provided the current printer lists
`application/pdf` among its MIME types and otherwise falls through to the
unsupported-operation alert; a file destination copies an existing print
file to a `.pdf` target or converts through CUPS to a `.ps` target; a
preview destination opens the file and returns `noErr`; any other
destination raises the unsupported-operation alert. -/
theorem c4_finishprint_destinations (env : PrintEnv) (st : PrintGlobals)
    (file : Option String) (f : String)
    (h1 : env.createSessionStatus = noErr)
    (h2 : env.createSettingsStatus = noErr)
    (h3 : env.defaultSettingsStatus = noErr)
    (h4 : env.getDestinationStatus = noErr)
    (hurl : st.urlFile = some f) :
    (∀ st', FinishPrint env st' file NSModalResponseCancel =
      (noErr, st', [])) ∧
    (env.destination = kPMDestinationPrinter →
      env.getCurrentPrinterStatus = noErr → env.getMimeTypesStatus = noErr →
      env.mimeTypesNonNull = true → env.mimeTypesContainPDF = true →
      FinishPrint env st file NSModalResponseOK =
        (env.printWithFileStatus,
         releaseURLFile { st with fileName := file }, [.printFile])) ∧
    (env.destination = kPMDestinationPrinter →
      env.getCurrentPrinterStatus = noErr → env.getMimeTypesStatus = noErr →
      env.mimeTypesNonNull = true → env.mimeTypesContainPDF = false →
      FinishPrint env st file NSModalResponseOK =
        (noErr, { st with fileName := file }, [.showAlert])) ∧
    (env.destination = kPMDestinationFile →
      env.copyDestinationStatus = noErr → env.destExtension = "pdf" →
      env.sourceFileExists = true →
      FinishPrint env st file NSModalResponseOK =
        (noErr, { st with fileName := file }, [.copyFile])) ∧
    (env.destination = kPMDestinationFile →
      env.copyDestinationStatus = noErr → env.destExtension = "ps" →
      FinishPrint env st file NSModalResponseOK =
        (noErr, { st with fileName := file }, [.cupsFilter])) ∧
    (env.destination = kPMDestinationPreview →
      FinishPrint env st file NSModalResponseOK =
        (noErr, { st with fileName := file }, [.openURL])) ∧
    (env.destination ≠ kPMDestinationPrinter →
      env.destination ≠ kPMDestinationFile →
      env.destination ≠ kPMDestinationPreview →
      FinishPrint env st file NSModalResponseOK =
        (noErr, { st with fileName := file }, [.showAlert])) := by
  refine ⟨?_, ?_, ?_, ?_, ?_, ?_, ?_⟩
  · intro st'
    simp [FinishPrint, NSModalResponseCancel]
  · intro hdest hcp hmt hnn hpdf
    simp [FinishPrint, h1, h2, h3, h4, hurl, hdest, hcp, hmt, hnn, hpdf,
      NSModalResponseOK, NSModalResponseCancel, noErr, kPMDestinationPrinter]
  · intro hdest hcp hmt hnn hpdf
    simp [FinishPrint, FinishPrintFileBlock, FinishPrintPreviewBlock,
      FinishPrintAlertBlock, h1, h2, h3, h4, hurl, hdest, hcp, hmt, hnn,
      hpdf, NSModalResponseOK, NSModalResponseCancel, noErr,
      kPMDestinationPrinter, kPMDestinationFile, kPMDestinationPreview]
  · intro hdest hcopy hext hsrc
    simp [FinishPrint, FinishPrintFileBlock, FinishPrintPreviewBlock,
      FinishPrintAlertBlock, h1, h2, h3, h4, hurl, hdest, hcopy, hext, hsrc,
      NSModalResponseOK, NSModalResponseCancel, noErr,
      kPMDestinationPrinter, kPMDestinationFile, kPMDestinationPreview]
  · intro hdest hcopy hext
    simp [FinishPrint, FinishPrintFileBlock, FinishPrintPreviewBlock,
      FinishPrintAlertBlock, h1, h2, h3, h4, hurl, hdest, hcopy, hext,
      NSModalResponseOK, NSModalResponseCancel, noErr,
      kPMDestinationPrinter, kPMDestinationFile, kPMDestinationPreview]
  · intro hdest
    simp [FinishPrint, FinishPrintFileBlock, FinishPrintPreviewBlock,
      FinishPrintAlertBlock, h1, h2, h3, h4, hurl, hdest,
      NSModalResponseOK, NSModalResponseCancel, noErr,
      kPMDestinationPrinter, kPMDestinationFile, kPMDestinationPreview]
  · intro hd1 hd2 hd3
    simp only [kPMDestinationPrinter, kPMDestinationFile,
      kPMDestinationPreview] at hd1 hd2 hd3
    simp [FinishPrint, FinishPrintFileBlock, FinishPrintPreviewBlock,
      FinishPrintAlertBlock, h1, h2, h3, h4, hurl, hd1, hd2, hd3,
      NSModalResponseOK, NSModalResponseCancel, noErr,
      kPMDestinationPrinter, kPMDestinationFile, kPMDestinationPreview]

/-- Environment in which every OS call succeeds but the current printer does
not list `application/pdf` among its MIME types. -/
def c4env : PrintEnv :=
  { startCreateSessionStatus := 0, startCreateSettingsStatus := 0,
    startDefaultSettingsStatus := 0, accepted := 1,
    createSessionStatus := 0, createSettingsStatus := 0,
    defaultSettingsStatus := 0, getDestinationStatus := 0,
    destination := 1, getCurrentPrinterStatus := 0,
    getMimeTypesStatus := 0, mimeTypesNonNull := true,
    mimeTypesContainPDF := false, printWithFileStatus := 0,
    copyDestinationStatus := 0, destExtension := "pdf",
    sourceFileExists := true }

/-- Globals holding a retained print file. -/
def c4state : PrintGlobals :=
  { fileName := some "doc.pdf", urlFile := some "doc.pdf",
    retainedRefs := ["doc.pdf"] }

/-- Counterexample to the unamended destination claim: with destination
printer but a printer that does not accept `application/pdf`, `FinishPrint`
does not print — it shows the unsupported-operation alert instead. -/
theorem c4_counterexample :
    (FinishPrint c4env c4state (some "doc.pdf") NSModalResponseOK).2.2 =
      [PrintAction.showAlert] ∧
    PrintAction.printFile ∉
      (FinishPrint c4env c4state (some "doc.pdf") NSModalResponseOK).2.2 := by
  constructor
  · rfl
  · decide

/-- Witness for the amended destination theorem: the same all-successful
environment sends the file to the printer once the printer accepts
`application/pdf`. -/
theorem c4_witness :
    FinishPrint { c4env with mimeTypesContainPDF := true } c4state
        (some "doc.pdf") NSModalResponseOK =
      ({ c4env with mimeTypesContainPDF := true }.printWithFileStatus,
       releaseURLFile { c4state with fileName := some "doc.pdf" },
       [.printFile]) :=
  (c4_finishprint_destinations { c4env with mimeTypesContainPDF := true }
    c4state (some "doc.pdf") "doc.pdf" rfl rfl rfl rfl rfl).2.1
    rfl rfl rfl rfl rfl

/-- C5 (amended): the behaviour of one `StartPrint` invocation — its Tcl
result and its effect trace — depends only on its own arguments and dialog
outcome, not on the globals left by earlier invocations; but the print job
state does persist: after the invocation the file path remains stored in
`fileName` and `urlFile`, and on a cancelled dialog the retained string
reference is not released. -/
theorem c5_behaviour_independent_but_state_persists (env : PrintEnv)
    (st1 st2 : PrintGlobals) (args : List String) :
    ((StartPrint env st1 args).1 = (StartPrint env st2 args).1) ∧
    ((StartPrint env st1 args).2.2 = (StartPrint env st2 args).2.2) ∧
    (2 ≤ args.length →
      (StartPrint env st1 args).2.1.fileName = some (args.getD 1 "") ∧
      (StartPrint env st1 args).2.1.urlFile = some (args.getD 1 "")) ∧
    (2 ≤ args.length → env.accepted = NSModalResponseCancel →
      (StartPrint env st1 args).2.1.retainedRefs =
        args.getD 1 "" :: st1.retainedRefs) := by
  refine ⟨?_, ?_, ?_, ?_⟩
  · by_cases hlen : args.length < 2
    · simp [StartPrint, hlen]
    · simp only [StartPrint, if_neg hlen]
      by_cases s1 : env.startCreateSessionStatus ≠ noErr
      · simp [s1]
      simp only [if_neg s1]
      by_cases s2 : env.startCreateSettingsStatus ≠ noErr
      · simp [s2]
      simp only [if_neg s2]
      by_cases s3 : env.startDefaultSettingsStatus ≠ noErr
      · simp [s3]
      simp only [if_neg s3]
  · by_cases hlen : args.length < 2
    · simp [StartPrint, hlen]
    · simp only [StartPrint, if_neg hlen]
      by_cases s1 : env.startCreateSessionStatus ≠ noErr
      · simp [s1]
      simp only [if_neg s1]
      by_cases s2 : env.startCreateSettingsStatus ≠ noErr
      · simp [s2]
      simp only [if_neg s2]
      by_cases s3 : env.startDefaultSettingsStatus ≠ noErr
      · simp [s3]
      simp only [if_neg s3]
      exact (finishprint_behaviour_congr env (some (args.getD 1 ""))
        env.accepted
        { fileName := some (args.getD 1 ""), urlFile := some (args.getD 1 ""),
          retainedRefs := args.getD 1 "" :: st1.retainedRefs }
        { fileName := some (args.getD 1 ""), urlFile := some (args.getD 1 ""),
          retainedRefs := args.getD 1 "" :: st2.retainedRefs } rfl).2
  · intro hlen2
    have hlen : ¬args.length < 2 := by omega
    simp only [StartPrint, if_neg hlen]
    by_cases s1 : env.startCreateSessionStatus ≠ noErr
    · simp [s1]
    simp only [if_neg s1]
    by_cases s2 : env.startCreateSettingsStatus ≠ noErr
    · simp [s2]
    simp only [if_neg s2]
    by_cases s3 : env.startDefaultSettingsStatus ≠ noErr
    · simp [s3]
    simp only [if_neg s3]
    exact ⟨((finishprint_globals env _ env.accepted).1).trans rfl,
      ((finishprint_globals env _ env.accepted).2).trans rfl⟩
  · intro hlen2 hacc
    have hlen : ¬args.length < 2 := by omega
    simp only [StartPrint, if_neg hlen]
    by_cases s1 : env.startCreateSessionStatus ≠ noErr
    · simp [s1]
    simp only [if_neg s1]
    by_cases s2 : env.startCreateSettingsStatus ≠ noErr
    · simp [s2]
    simp only [if_neg s2]
    by_cases s3 : env.startDefaultSettingsStatus ≠ noErr
    · simp [s3]
    simp only [if_neg s3]
    simp [FinishPrint, hacc]

/-- Environment with a cancelled dialog and all setup calls succeeding. -/
def c5env : PrintEnv :=
  { c4env with accepted := 0 }

/-- Counterexample to the unamended transiency claim: starting from empty
globals, one `StartPrint` + `FinishPrint` round with a cancelled dialog
leaves the source file path stored in the globals and its retained string
reference unreleased. -/
theorem c5_counterexample :
    (StartPrint c5env { fileName := none, urlFile := none, retainedRefs := [] }
        ["::tk::print::_print", "a.pdf"]).2.1.fileName = some "a.pdf" ∧
    (StartPrint c5env { fileName := none, urlFile := none, retainedRefs := [] }
        ["::tk::print::_print", "a.pdf"]).2.1.retainedRefs = ["a.pdf"] :=
  ⟨rfl, rfl⟩

/-- Witness for the amended transiency theorem at two different prior
global states. -/
theorem c5_witness :
    ((StartPrint c5env { fileName := none, urlFile := none, retainedRefs := [] }
        ["::tk::print::_print", "a.pdf"]).1 =
      (StartPrint c5env c4state ["::tk::print::_print", "a.pdf"]).1) ∧
    ((StartPrint c5env { fileName := none, urlFile := none, retainedRefs := [] }
        ["::tk::print::_print", "a.pdf"]).2.2 =
      (StartPrint c5env c4state ["::tk::print::_print", "a.pdf"]).2.2) ∧
    (StartPrint c5env { fileName := none, urlFile := none, retainedRefs := [] }
        ["::tk::print::_print", "a.pdf"]).2.1.fileName = some "a.pdf" :=
  ⟨(c5_behaviour_independent_but_state_persists c5env
      { fileName := none, urlFile := none, retainedRefs := [] } c4state
      ["::tk::print::_print", "a.pdf"]).1,
   (c5_behaviour_independent_but_state_persists c5env
      { fileName := none, urlFile := none, retainedRefs := [] } c4state
      ["::tk::print::_print", "a.pdf"]).2.1,
   ((c5_behaviour_independent_but_state_persists c5env
      { fileName := none, urlFile := none, retainedRefs := [] } c4state
      ["::tk::print::_print", "a.pdf"]).2.2.1 (by norm_num)).1⟩

/-- Environment in which every image resolution succeeds with a
non-template image. -/
def c6env : NSEnv :=
  { namedImage := fun _ => some false, fileImage := fun _ => some false,
    pathIconTemplate := fun _ => false, filetypeIconTemplate := fun _ => false }

/-- Master configured with the abbreviated `-as` value `"n"`. -/
def c6master : TkNSImageMaster :=
  { imageName := "img1", source := some "foo", as := "n", width := 4,
    height := 4, alpha := 1, pressed := false, image := none,
    darkModeImage := none }

/-- Counterexample to the exact-four-values claim: the `-as` value `"n"` is
none of `name`, `file`, `path`, `filetype`, yet configuration succeeds
(resolving it as `name` through Tcl's prefix matching) instead of
returning `TCL_ERROR`. -/
theorem c6_counterexample :
    ("n" ∉ sourceInterpretations) ∧
    (TkNSImageConfigureMaster c6env c6master).code = TCL_OK ∧
    (TkNSImageConfigureMaster c6env c6master).master.image ≠ none := by
  refine ⟨by decide, ?_, ?_⟩ <;>
    simp [TkNSImageConfigureMaster, TkNSImageResolveSource, c6env, c6master,
      TCL_OK,
      show tclGetIndexFromObj "n" sourceInterpretations = some 0 from by decide,
      show ¬("foo" : String).take 1 = "0" from by decide]

/-- C6 (amended): an `-as` value is accepted exactly when Tcl's index lookup
resolves it — it equals one of `name`, `file`, `path`, `filetype` or is an
unambiguous proper prefix of exactly one of them; every other value makes
`TkNSImageConfigureMaster` return `TCL_ERROR` with an error message and
leave the master, in particular its installed images, unchanged; each
accepted value resolves `-source` by the matching method. -/
theorem c6_as_interpretations (env : NSEnv) (m : TkNSImageMaster) (s : String)
    (hsrc : m.source = some s) (hzero : ¬s.take 1 = "0") :
    (tclGetIndexFromObj m.as sourceInterpretations = none →
      (TkNSImageConfigureMaster env m).code = TCL_ERROR ∧
      (TkNSImageConfigureMaster env m).errMsg ≠ none ∧
      (TkNSImageConfigureMaster env m).master = m) ∧
    (∀ t, tclGetIndexFromObj m.as sourceInterpretations = some 0 →
      env.namedImage s = some t →
      (TkNSImageConfigureMaster env m).code = TCL_OK ∧
      ∃ i, (TkNSImageConfigureMaster env m).master.image = some i ∧
        i.base = NSImageBase.named s) ∧
    (∀ t, tclGetIndexFromObj m.as sourceInterpretations = some 1 →
      env.fileImage s = some t →
      (TkNSImageConfigureMaster env m).code = TCL_OK ∧
      ∃ i, (TkNSImageConfigureMaster env m).master.image = some i ∧
        i.base = NSImageBase.ofFileContents s) ∧
    (tclGetIndexFromObj m.as sourceInterpretations = some 2 →
      (TkNSImageConfigureMaster env m).code = TCL_OK ∧
      ∃ i, (TkNSImageConfigureMaster env m).master.image = some i ∧
        i.base = NSImageBase.iconForFile s) ∧
    (tclGetIndexFromObj m.as sourceInterpretations = some 3 →
      (TkNSImageConfigureMaster env m).code = TCL_OK ∧
      ∃ i, (TkNSImageConfigureMaster env m).master.image = some i ∧
        i.base = NSImageBase.iconForFileType s) := by
  have hcond : (m.source = none ∨ (m.source.getD "").take 1 = "0") = False := by
    simp [hsrc, hzero]
  refine ⟨?_, ?_, ?_, ?_, ?_⟩
  · intro hlook
    simp [TkNSImageConfigureMaster, hcond, hlook, TCL_ERROR]
  · intro t hlook henv
    simp only [TkNSImageConfigureMaster, hcond, if_false, hlook]
    simp only [hsrc, Option.getD_some, TkNSImageResolveSource, henv,
      Option.map_some']
    constructor
    · rfl
    · repeat' split
      all_goals exact ⟨_, rfl, rfl⟩
  · intro t hlook henv
    simp only [TkNSImageConfigureMaster, hcond, if_false, hlook]
    simp only [hsrc, Option.getD_some, TkNSImageResolveSource, henv,
      Option.map_some']
    constructor
    · rfl
    · repeat' split
      all_goals exact ⟨_, rfl, rfl⟩
  · intro hlook
    simp only [TkNSImageConfigureMaster, hcond, if_false, hlook,
      TkNSImageResolveSource]
    simp only [hsrc, Option.getD_some]
    constructor
    · rfl
    · repeat' split
      all_goals exact ⟨_, rfl, rfl⟩
  · intro hlook
    simp only [TkNSImageConfigureMaster, hcond, if_false, hlook,
      TkNSImageResolveSource]
    simp only [hsrc, Option.getD_some]
    constructor
    · rfl
    · repeat' split
      all_goals exact ⟨_, rfl, rfl⟩

/-- Witness for the `-as` interpretation theorem at the exact value
`"file"`. -/
theorem c6_witness :
    (TkNSImageConfigureMaster c6env { c6master with as := "file" }).code =
      TCL_OK ∧
    ∃ i, (TkNSImageConfigureMaster c6env
        { c6master with as := "file" }).master.image = some i ∧
      i.base = NSImageBase.ofFileContents "foo" :=
  (c6_as_interpretations c6env { c6master with as := "file" } "foo" rfl
    (by decide)).2.2.1 false (by decide) rfl

/-- C7: a successful nsimage configuration installs both a light image and
a Dark Mode variant; `TkNSImageDisplay` draws the Dark Mode variant exactly
when the window is in dark mode, composited with the master's alpha; the
Dark Mode variant of a template image is the image filled white, and for a
non-template image with `-pressed` both variants are tinted (black at
alpha 1/5 in light mode, white at alpha 1/2 in dark mode). -/
theorem c7_dark_mode_variants (env : NSEnv) (m : TkNSImageMaster) :
    (∀ dm : Bool, TkNSImageDisplay dm m =
      ((if dm then m.darkModeImage else m.image), m.alpha)) ∧
    ((TkNSImageConfigureMaster env m).code = TCL_OK →
      ∃ i dk, (TkNSImageConfigureMaster env m).master.image = some i ∧
        (TkNSImageConfigureMaster env m).master.darkModeImage = some dk ∧
        (i.isTemplate = true → dk = { i with whiteFilled := true }) ∧
        (i.isTemplate = false → m.pressed = true →
          i.tint = some (NSColorVal.black, 1/5) ∧
          dk.tint = some (NSColorVal.white, 1/2)) ∧
        (i.isTemplate = false → m.pressed = false → dk = i)) := by
  constructor
  · intro dm
    rfl
  · intro hcode
    by_cases hc0 : (m.source = none ∨ (m.source.getD "").take 1 = "0")
    · rw [TkNSImageConfigureMaster, if_pos hc0] at hcode
      exact absurd hcode (by simp [TCL_OK])
    · rcases hl : tclGetIndexFromObj m.as sourceInterpretations with _ | idx
      · simp [TkNSImageConfigureMaster, if_neg hc0, hl, TCL_OK] at hcode
      · rcases hres : TkNSImageResolveSource env idx (m.source.getD "")
          with _ | ni
        · simp [TkNSImageConfigureMaster, if_neg hc0, hl, hres, TCL_OK]
            at hcode
        · simp only [TkNSImageConfigureMaster, if_neg hc0, hl, hres]
          by_cases htmp : ni.isTemplate = true
          · simp only [if_pos htmp]
            refine ⟨_, _, rfl, rfl, ?_, ?_, ?_⟩
            · intro _
              rfl
            · intro hf _
              have hf' : ni.isTemplate = false := hf
              rw [hf'] at htmp
              simp at htmp
            · intro hf _
              have hf' : ni.isTemplate = false := hf
              rw [hf'] at htmp
              simp at htmp
          · simp only [if_neg htmp]
            by_cases hpr : m.pressed = true
            · simp only [if_pos hpr]
              refine ⟨_, _, rfl, rfl, ?_, ?_, ?_⟩
              · intro ht
                have ht' : ni.isTemplate = true := ht
                exact absurd ht' htmp
              · intro _ _
                exact ⟨rfl, rfl⟩
              · intro _ hp
                rw [hp] at hpr
                simp at hpr
            · simp only [if_neg hpr]
              refine ⟨_, _, rfl, rfl, ?_, ?_, ?_⟩
              · intro ht
                have ht' : ni.isTemplate = true := ht
                exact absurd ht' htmp
              · intro _ hp
                exact absurd hp hpr
              · intro _ _
                rfl

/-- Witness for the dark-mode theorem at a concrete configuration. -/
theorem c7_witness :
    (TkNSImageDisplay true c6master =
      (c6master.darkModeImage, c6master.alpha)) ∧
    (∃ i dk,
        (TkNSImageConfigureMaster c6env c6master).master.image = some i ∧
        (TkNSImageConfigureMaster c6env c6master).master.darkModeImage =
          some dk ∧
        (i.isTemplate = true → dk = { i with whiteFilled := true }) ∧
        (i.isTemplate = false → c6master.pressed = true →
          i.tint = some (NSColorVal.black, 1/5) ∧
          dk.tint = some (NSColorVal.white, 1/2)) ∧
        (i.isTemplate = false → c6master.pressed = false → dk = i)) :=
  ⟨(c7_dark_mode_variants c6env c6master).1 true,
   (c7_dark_mode_variants c6env c6master).2 (by decide)⟩

/-- C8: `TkNSImageGet` returns a fresh instance holding a pointer to the
master it was created from, without touching the masters, and
`TkNSImageFree` removes exactly that instance: the masters and every other
instance survive unchanged. -/
theorem c8_instance_lifecycle (h : NSImageHeap) (masterId instId : Nat) :
    ((TkNSImageGet h masterId).2.instances.head? =
      some ((TkNSImageGet h masterId).1, ⟨masterId⟩)) ∧
    ((TkNSImageGet h masterId).2.masters = h.masters) ∧
    ((TkNSImageFree h instId).masters = h.masters) ∧
    (∀ e ∈ h.instances, e.1 ≠ instId →
      e ∈ (TkNSImageFree h instId).instances) ∧
    (∀ e ∈ (TkNSImageFree h instId).instances, e.1 ≠ instId ∧
      e ∈ h.instances) := by
  refine ⟨rfl, rfl, rfl, ?_, ?_⟩
  · intro e he hne
    simp [TkNSImageFree, List.mem_filter, he, hne]
  · intro e he
    simp [TkNSImageFree, List.mem_filter] at he
    exact ⟨he.2, he.1⟩

/-- Concrete master record for the instance-lifecycle witness. -/
def c8master : TkNSImageMaster :=
  { imageName := "img2", source := some "bar", as := "name", width := 16,
    height := 16, alpha := 1, pressed := false, image := none,
    darkModeImage := none }

/-- Concrete heap with one master and one other instance. -/
def c8heap : NSImageHeap :=
  { masters := [(0, c8master)], instances := [(5, ⟨0⟩)], nextId := 6 }

/-- Witness for the instance-lifecycle theorem on a small concrete heap. -/
theorem c8_witness :
    ((TkNSImageGet c8heap 0).2.instances.head? =
      some ((TkNSImageGet c8heap 0).1, ⟨0⟩)) ∧
    ((TkNSImageFree c8heap 5).masters = c8heap.masters) ∧
    ((5, (⟨0⟩ : TkNSImageInstance)) ∈
        (TkNSImageFree c8heap 7).instances) :=
  ⟨(c8_instance_lifecycle c8heap 0 5).1,
   (c8_instance_lifecycle c8heap 0 5).2.2.1,
   (c8_instance_lifecycle c8heap 0 7).2.2.2.1 (5, ⟨0⟩) (by decide)
     (by decide)⟩
